import Mathlib

/-!
# SdMount: pin resolution, card detection and the mount state machine

A shallow embedding of `main/boards/common/sd_mount.cc` / `sd_mount.h`.

* The file-static variables `sd_pins` and `s_card` and the singleton `SdMount`
  object form the `World` state.
* Calls into the vendor APIs (GPIO driver, SDMMC host, FAT mount) are recorded,
  in program order and with their arguments, in `World.trace`.
* What the vendor APIs answer during one public operation is an `Env`; the
  content of the NVS partition is an `NvsFlash`.
* `ESP_LOGx` diagnostics are not part of the model.
-/

namespace SdMountModel

/-! ## Vendor types and constants (ESP-IDF headers, not part of the repository) -/

/-- Error code type `esp_err_t` (a C `int`). -/
abbrev esp_err_t := Int

/-- Success code `ESP_OK`. -/
def ESP_OK : esp_err_t := 0

/-- Generic failure code `ESP_FAIL`. -/
def ESP_FAIL : esp_err_t := -1

/-- GPIO line identifier `gpio_num_t` (an enum over `int`). -/
abbrev gpio_num_t := Int

/-- Sentinel `GPIO_NUM_NC`: line not connected. -/
def GPIO_NUM_NC : gpio_num_t := -1

def GPIO_NUM_13 : gpio_num_t := 13
def GPIO_NUM_17 : gpio_num_t := 17
def GPIO_NUM_18 : gpio_num_t := 18
def GPIO_NUM_21 : gpio_num_t := 21

/-- Direction constant `GPIO_MODE_INPUT`. -/
def GPIO_MODE_INPUT : Nat := 1

/-- Slot index `SDMMC_HOST_SLOT_1`. -/
def SDMMC_HOST_SLOT_1 : Int := 1

/-- Default bus frequency `SDMMC_FREQ_DEFAULT`, in kHz. -/
def SDMMC_FREQ_DEFAULT : Int := 20000

/-- Card identification register `sdmmc_cid_t`; `name` is the `char name[8]` buffer. -/
structure sdmmc_cid_t where
  mfg_id : Int
  oem_id : Int
  name : Fin 8 → Char
  revision : Int
  serial : Int
  date : Int

/-- Card specific data `sdmmc_csd_t`; `capacity` is the C `int` sector count. -/
structure sdmmc_csd_t where
  capacity : Int
  sector_size : Int

/-- Card descriptor `sdmmc_card_t`, restricted to the registers the code reads. -/
structure sdmmc_card_t where
  cid : sdmmc_cid_t
  csd : sdmmc_csd_t

/-- Host descriptor `sdmmc_host_t`: `SDMMC_HOST_DEFAULT()` with the one field the code assigns. -/
structure sdmmc_host_t where
  max_freq_khz : Int

/-- Slot configuration `sdmmc_slot_config_t`: `SDMMC_SLOT_CONFIG_DEFAULT()` with the
fields the code assigns. -/
structure sdmmc_slot_config_t where
  width : Nat
  clk : gpio_num_t
  cmd : gpio_num_t
  d0 : gpio_num_t
  d3 : gpio_num_t

/-- Mount options `esp_vfs_fat_sdmmc_mount_config_t`. -/
structure esp_vfs_fat_sdmmc_mount_config_t where
  format_if_mount_failed : Bool
  max_files : Nat
  allocation_unit_size : Nat

/-! ## Program data (sd_mount.cc lines 21-33, sd_mount.h lines 35-56) -/

/-- Pin map `SdPinMap`. -/
structure SdPinMap where
  clk : gpio_num_t
  cmd : gpio_num_t
  d0 : gpio_num_t
  d3 : gpio_num_t

/-- Card summary `SdMount::SdCardInfo`; both fields are `uint32_t`. -/
structure SdCardInfo where
  capacityMB : Nat := 0
  speedKBps : Nat := 0

/-- Data members of the class `SdMount`. -/
structure SdMount where
  mounted_ : Bool
  last_detect_state_ : Bool
  mount_point_ : String
  card_name_ : String
  info_ : SdCardInfo

/-- One call into a vendor API, with its arguments and (where the code reads it) its result. -/
inductive Event where
  | gpio_set_direction (pin : gpio_num_t) (mode : Nat)
  | gpio_pullup_en (pin : gpio_num_t)
  | gpio_get_level (pin : gpio_num_t) (level : Int)
  | sdmmc_host_init (ret : esp_err_t)
  | sdmmc_host_init_slot (slotIdx : Int) (slot : sdmmc_slot_config_t) (ret : esp_err_t)
  | esp_vfs_fat_sdmmc_mount (base_path : String) (host : sdmmc_host_t)
      (slot : sdmmc_slot_config_t) (cfg : esp_vfs_fat_sdmmc_mount_config_t) (ret : esp_err_t)
      (out_card : Option sdmmc_card_t)
  | esp_vfs_fat_sdcard_unmount (base_path : String) (card : Option sdmmc_card_t)
  | sdmmc_host_deinit

/-- Whole program state: the two file-static variables, the singleton instance and the
trace of vendor calls made so far. A null `sdmmc_card_t*` is `none`. -/
structure World where
  sd_pins : SdPinMap
  s_card : Option sdmmc_card_t
  inst : SdMount
  trace : List Event

/-- Content of the NVS partition: `nvs_open` of a namespace yields a handle or fails, and
`nvs_get_i32` on a handle yields the stored value of a key or fails. -/
structure NvsFlash where
  nvs_open : String → Option (String → Option Int)

/-- Answers of the vendor APIs during one public operation. `mount_card` is the descriptor
that `esp_vfs_fat_sdmmc_mount` hands out through its out-parameter when it returns `ESP_OK`. -/
structure Env where
  gpio_get_level : gpio_num_t → Int
  sdmmc_host_init : esp_err_t
  sdmmc_host_init_slot : esp_err_t
  esp_vfs_fat_sdmmc_mount : esp_err_t
  mount_card : sdmmc_card_t

/-- Value of the local `card` after `esp_vfs_fat_sdmmc_mount` returned: it starts as
`nullptr` (line 215) and the call fills it in when it returns `ESP_OK`. -/
def Env.out_card (env : Env) : Option sdmmc_card_t :=
  if env.esp_vfs_fat_sdmmc_mount = ESP_OK then some env.mount_card else none

/-- Append one vendor call to the trace. -/
def World.emit (w : World) (e : Event) : World :=
  { w with trace := w.trace ++ [e] }

/-! ## The code -/

/-- Initial value of the file-static `sd_pins` (lines 28-30). -/
def sd_pins_initial : SdPinMap :=
  { clk := GPIO_NUM_NC, cmd := GPIO_NUM_NC, d0 := GPIO_NUM_NC, d3 := GPIO_NUM_NC }

/-- Compiled-in default pin map assigned by `Init` (line 102). -/
def sd_pins_default : SdPinMap :=
  { clk := GPIO_NUM_17, cmd := GPIO_NUM_18, d0 := GPIO_NUM_21, d3 := GPIO_NUM_13 }

/-- Constructor `SdMount::SdMount` (lines 76-81). -/
def SdMount.new : SdMount :=
  { mounted_ := false, last_detect_state_ := true, mount_point_ := "/sdcard",
    card_name_ := "", info_ := {} }

/-- State of the program once the singleton has been constructed. -/
def World.initial : World :=
  { sd_pins := sd_pins_initial, s_card := none, inst := SdMount.new, trace := [] }

/-- Function `LoadPinmapFromNvs` (lines 44-71): the returned flag and the updated state. -/
def LoadPinmapFromNvs (flash : NvsFlash) (w : World) : Bool × World :=
  match flash.nvs_open "wifi" with
  | none => (false, w)
  | some nvs =>
    match nvs "sd_clk", nvs "sd_cmd", nvs "sd_d0", nvs "sd_d3" with
    | some clk, some cmd, some d0, some d3 =>
      (true, { w with sd_pins := { clk := clk, cmd := cmd, d0 := d0, d3 := d3 } })
    | _, _, _, _ => (false, w)

/-- Method `SdMount::DetectInserted` (lines 153-173). -/
def DetectInserted (env : Env) (w : World) : Bool × World :=
  if w.sd_pins.d3 = GPIO_NUM_NC then (false, w)
  else
    let level := env.gpio_get_level w.sd_pins.d3
    let w1 := w.emit (Event.gpio_get_level w.sd_pins.d3 level)
    let inserted := decide (level = 1)
    if inserted ≠ w1.inst.last_detect_state_ then
      (inserted, { w1 with inst := { w1.inst with last_detect_state_ := inserted } })
    else (inserted, w1)

/-- Card name captured on success: `std::string(card->cid.name, 5)` (line 253). -/
def cardNameOf (card : sdmmc_card_t) : String :=
  String.mk [card.cid.name 0, card.cid.name 1, card.cid.name 2, card.cid.name 3, card.cid.name 4]

/-- Capacity captured on success: `card->csd.capacity / (1024 * 1024)` in C `int`
arithmetic, stored into a `uint32_t` (line 254). -/
def capacityMBOf (card : sdmmc_card_t) : Nat :=
  ((card.csd.capacity.tdiv (1024 * 1024)) % 4294967296).toNat

/-- Host descriptor built by `Loop` (lines 197-198). -/
def Loop.host : sdmmc_host_t := { max_freq_khz := SDMMC_FREQ_DEFAULT }

/-- Slot configuration built by `Loop` from the current pin map (lines 201-206). -/
def Loop.slot (pins : SdPinMap) : sdmmc_slot_config_t :=
  { width := 1, clk := pins.clk, cmd := pins.cmd, d0 := pins.d0, d3 := pins.d3 }

/-- Mount options built by `Loop` (lines 209-213). -/
def Loop.mount_cfg : esp_vfs_fat_sdmmc_mount_config_t :=
  { format_if_mount_failed := false, max_files := 6, allocation_unit_size := 16 * 1024 }

/-- Method `SdMount::Loop` (lines 178-282). -/
def Loop (env : Env) (w : World) : World :=
  if w.inst.mounted_ then w
  else
    let w1 := (DetectInserted env w).2
    if (DetectInserted env w).1 = false then w1
    else if w1.sd_pins.clk = GPIO_NUM_NC ∨ w1.sd_pins.cmd = GPIO_NUM_NC
        ∨ w1.sd_pins.d0 = GPIO_NUM_NC then w1
    else
      let w2 := w1.emit (Event.sdmmc_host_init env.sdmmc_host_init)
      if env.sdmmc_host_init ≠ ESP_OK then w2
      else
        let w3 := w2.emit (Event.sdmmc_host_init_slot SDMMC_HOST_SLOT_1 (Loop.slot w1.sd_pins)
          env.sdmmc_host_init_slot)
        if env.sdmmc_host_init_slot ≠ ESP_OK then w3.emit Event.sdmmc_host_deinit
        else
          let w4 := w3.emit (Event.esp_vfs_fat_sdmmc_mount "/sdcard" Loop.host
            (Loop.slot w1.sd_pins) Loop.mount_cfg env.esp_vfs_fat_sdmmc_mount env.out_card)
          if env.esp_vfs_fat_sdmmc_mount ≠ ESP_OK then
            let w5 := w4.emit Event.sdmmc_host_deinit
            { w5 with inst := { w5.inst with mounted_ := false }, s_card := none }
          else
            { w4 with
              s_card := some env.mount_card
              inst := { w4.inst with
                mounted_ := true
                card_name_ := cardNameOf env.mount_card
                info_ := { w4.inst.info_ with capacityMB := capacityMBOf env.mount_card } } }

/-- Method `SdMount::Deinit` (lines 287-298). -/
def Deinit (w : World) : World :=
  let w1 :=
    if w.inst.mounted_ then
      let wu := w.emit (Event.esp_vfs_fat_sdcard_unmount w.inst.mount_point_ w.s_card)
      { wu with inst := { wu.inst with mounted_ := false }, s_card := none }
    else w
  w1.emit Event.sdmmc_host_deinit

/-- Detect-line setup shared by `Init` and `ReinitFromNvs` (lines 107-110 and 137-140). -/
def configDetect (w : World) : World :=
  if w.sd_pins.d3 ≠ GPIO_NUM_NC then
    (w.emit (Event.gpio_set_direction w.sd_pins.d3 GPIO_MODE_INPUT)).emit
      (Event.gpio_pullup_en w.sd_pins.d3)
  else w

/-- Method `SdMount::Init` (lines 92-115). -/
def Init (flash : NvsFlash) (env : Env) (w : World) : esp_err_t × World :=
  let w1 :=
    if (LoadPinmapFromNvs flash w).1 then (LoadPinmapFromNvs flash w).2
    else { (LoadPinmapFromNvs flash w).2 with sd_pins := sd_pins_default }
  (ESP_OK, Loop env (configDetect w1))

/-- Method `SdMount::ReinitFromNvs` (lines 122-146). -/
def ReinitFromNvs (flash : NvsFlash) (env : Env) (w : World) : esp_err_t × World :=
  let w1 := Deinit w
  if (LoadPinmapFromNvs flash w1).1 = false then (ESP_FAIL, (LoadPinmapFromNvs flash w1).2)
  else
    let w3 := Loop env (configDetect (LoadPinmapFromNvs flash w1).2)
    (if w3.inst.mounted_ then ESP_OK else ESP_FAIL, w3)

/-- Accessor `SdMount::IsMounted`. -/
def IsMounted (w : World) : Bool := w.inst.mounted_

/-- Accessor `SdMount::GetMountPoint`. -/
def GetMountPoint (w : World) : String := w.inst.mount_point_

/-- Accessor `SdMount::GetCardName`. -/
def GetCardName (w : World) : String := w.inst.card_name_

/-- Accessor `SdMount::GetCardInfo`. -/
def GetCardInfo (w : World) : SdCardInfo := w.inst.info_

/-! ## Runs of the public interface -/

/-- One call of a public method, with the NVS content and vendor answers it meets. -/
inductive Op where
  | Init (flash : NvsFlash) (env : Env)
  | ReinitFromNvs (flash : NvsFlash) (env : Env)
  | Loop (env : Env)
  | Deinit

/-- Effect of one public call on the state. -/
def step (w : World) : Op → World
  | Op.Init flash env => (Init flash env w).2
  | Op.ReinitFromNvs flash env => (ReinitFromNvs flash env w).2
  | Op.Loop env => Loop env w
  | Op.Deinit => Deinit w

/-- State after a sequence of public calls. -/
def run (ops : List Op) (w : World) : World := ops.foldl step w

/-- States the program can be in: those a sequence of public calls produces from construction. -/
def Reachable (w : World) : Prop := ∃ ops : List Op, w = run ops World.initial

/-! ## Model of the external host controller -/

/-- Modelled from the spec: the "initialized" condition of the external host controller
(vendor driver, not in the repository). A successful `sdmmc_host_init` sets the flag,
`sdmmc_host_deinit` clears it, and every other call, a failed `sdmmc_host_init` included,
leaves it as it was. -/
def hostStep (b : Bool) : Event → Bool
  | Event.sdmmc_host_init ret => if ret = ESP_OK then true else b
  | Event.sdmmc_host_deinit => false
  | _ => b

/-- Host controller's "initialized" flag after the calls of a trace, clear at power-up. -/
def hostInitialized (t : List Event) : Bool := t.foldl hostStep false

/-! ## Observations on traces -/

/-- Number of `sdmmc_host_init` calls in a trace, i.e. of mount sequences started. -/
def hostInitCalls (t : List Event) : Nat :=
  t.countP fun e => match e with
    | Event.sdmmc_host_init _ => true
    | _ => false

/-- Whether a trace contains an `esp_vfs_fat_sdmmc_mount` call that returned `ESP_OK`. -/
def mountSucceeded (t : List Event) : Bool :=
  t.any fun e => match e with
    | Event.esp_vfs_fat_sdmmc_mount _ _ _ _ ret _ => decide (ret = ESP_OK)
    | _ => false

/-- Whether host init, slot init and mount all answer `ESP_OK`. -/
def stagesSucceed (env : Env) : Bool :=
  decide (env.sdmmc_host_init = ESP_OK ∧ env.sdmmc_host_init_slot = ESP_OK
    ∧ env.esp_vfs_fat_sdmmc_mount = ESP_OK)

/-- State right after `DetectInserted` has sampled a connected detect line: the read is
on the trace and the stored last-detect state is the sampled value. -/
def sampled (env : Env) (w : World) : World :=
  { w with
    trace := w.trace ++ [Event.gpio_get_level w.sd_pins.d3 (env.gpio_get_level w.sd_pins.d3)]
    inst := { w.inst with last_detect_state_ := decide (env.gpio_get_level w.sd_pins.d3 = 1) } }

/-- Conditions under which `Loop` gets past its guards and starts a mount sequence:
not mounted, detect line connected and read as 1, and `clk`, `cmd`, `d0` all connected. -/
structure StartsMount (env : Env) (w : World) : Prop where
  unmounted : w.inst.mounted_ = false
  connected : w.sd_pins.d3 ≠ GPIO_NUM_NC
  inserted : env.gpio_get_level w.sd_pins.d3 = 1
  clk : w.sd_pins.clk ≠ GPIO_NUM_NC
  cmd : w.sd_pins.cmd ≠ GPIO_NUM_NC
  d0 : w.sd_pins.d0 ≠ GPIO_NUM_NC

/-- Facts that hold in every state the public interface can produce: the card handle is
non-null exactly when mounted, the host controller is initialized exactly when mounted, the
mount point is "/sdcard", and name and info are the constructor's values as long as no
mount has succeeded. -/
structure Inv (w : World) : Prop where
  card : w.s_card.isSome = w.inst.mounted_
  host : hostInitialized w.trace = w.inst.mounted_
  point : w.inst.mount_point_ = "/sdcard"
  fresh : mountSucceeded w.trace = false → w.inst.card_name_ = "" ∧ w.inst.info_ = {}

/-- Whether every `sdmmc_host_init` call of a trace is issued while the host controller's
flag is clear, so that a controller rejecting an init as "already initialized" when the flag
is set never does so; `b` is the flag before the trace. -/
def initsWhenClear : Bool → List Event → Bool
  | _, [] => true
  | b, e :: es =>
    (match e with
      | Event.sdmmc_host_init _ => !b
      | _ => true) && initsWhenClear (hostStep b e) es

/-- Effect of one vendor call on "the handle returned by the most recent successful
mount". -/
def handleStep (h : Option sdmmc_card_t) : Event → Option sdmmc_card_t
  | Event.esp_vfs_fat_sdmmc_mount _ _ _ _ ret c => if ret = ESP_OK then c else h
  | _ => h

/-- Handle returned by the most recent successful `esp_vfs_fat_sdmmc_mount` of a trace. -/
def lastMountHandle (t : List Event) : Option sdmmc_card_t := t.foldl handleStep none

/-- Fixed parameters of the filesystem calls: a mount is at "/sdcard", without
format-on-failure, with 6 files, 16384-byte allocation units and bus width 1; an unmount is
at "/sdcard". Other calls are not constrained. -/
def Event.fixedParams : Event → Prop
  | Event.esp_vfs_fat_sdmmc_mount base_path _ slot cfg _ _ =>
    base_path = "/sdcard" ∧ cfg.format_if_mount_failed = false ∧ cfg.max_files = 6
      ∧ cfg.allocation_unit_size = 16384 ∧ slot.width = 1
  | Event.esp_vfs_fat_sdcard_unmount base_path _ => base_path = "/sdcard"
  | _ => True

/-- Facts about the call history of every state the public interface can produce: each host
init was issued with the host flag clear, each filesystem call used the fixed parameters,
the held handle of a mounted controller is the one the latest successful mount returned,
and the reserved `speedKBps` is 0. -/
structure TraceInv (w : World) : Prop where
  inits : initsWhenClear false w.trace = true
  params : ∀ e ∈ w.trace, Event.fixedParams e
  handle : w.inst.mounted_ = true → w.s_card = lastMountHandle w.trace
  speed : w.inst.info_.speedKBps = 0

/-! ## Concrete data used to instantiate the theorems -/

/-- NVS partition in which no namespace can be opened. -/
def flashEmpty : NvsFlash := { nvs_open := fun _ => none }

/-- NVS partition whose namespace "wifi" holds the given readings of the four pin keys. -/
def flashOf (clk cmd d0 d3 : Option Int) : NvsFlash :=
  { nvs_open := fun ns =>
      if ns = "wifi" then
        some (fun key =>
          if key = "sd_clk" then clk
          else if key = "sd_cmd" then cmd
          else if key = "sd_d0" then d0
          else if key = "sd_d3" then d3
          else none)
      else none }

/-- A card descriptor: product name "SD32G", 62333952 sectors of 512 bytes. -/
def cardSample : sdmmc_card_t :=
  { cid := { mfg_id := 3, oem_id := 21316,
             name := fun i => ['S', 'D', '3', '2', 'G'].getD i.val (Char.ofNat 0),
             revision := 128, serial := 305419896, date := 330 },
    csd := { capacity := 62333952, sector_size := 512 } }

/-- Vendor answers: detect line at the given level, and the given results of host init,
slot init and mount (handing out `cardSample`). -/
def envOf (level : Int) (hostRet slotRet mountRet : esp_err_t) : Env :=
  { gpio_get_level := fun _ => level, sdmmc_host_init := hostRet,
    sdmmc_host_init_slot := slotRet, esp_vfs_fat_sdmmc_mount := mountRet,
    mount_card := cardSample }

/-- Vendor answers of a run in which a card is present and every stage succeeds. -/
def envGood : Env := envOf 1 ESP_OK ESP_OK ESP_OK

/-- State after booting with an empty NVS partition and no card in the slot. -/
def worldBooted : World := (Init flashEmpty (envOf 0 ESP_OK ESP_OK ESP_OK) World.initial).2

/-- State after booting with an empty NVS partition and a card that mounts. -/
def worldMounted : World := (Init flashEmpty envGood World.initial).2

/-! ## Frame lemmas -/

theorem emit_sd_pins (w : World) (e : Event) : (w.emit e).sd_pins = w.sd_pins := rfl

theorem emit_inst (w : World) (e : Event) : (w.emit e).inst = w.inst := rfl

theorem emit_s_card (w : World) (e : Event) : (w.emit e).s_card = w.s_card := rfl

theorem emit_trace (w : World) (e : Event) : (w.emit e).trace = w.trace ++ [e] := rfl

theorem DetectInserted_sd_pins (env : Env) (w : World) :
    (DetectInserted env w).2.sd_pins = w.sd_pins := by
  unfold DetectInserted
  split
  · rfl
  · dsimp only
    split <;> rfl

theorem DetectInserted_s_card (env : Env) (w : World) :
    (DetectInserted env w).2.s_card = w.s_card := by
  unfold DetectInserted
  split
  · rfl
  · dsimp only
    split <;> rfl

theorem Loop_sd_pins (env : Env) (w : World) : (Loop env w).sd_pins = w.sd_pins := by
  unfold Loop
  dsimp only
  repeat (first | rfl | exact DetectInserted_sd_pins env w | split)

theorem configDetect_sd_pins (w : World) : (configDetect w).sd_pins = w.sd_pins := by
  unfold configDetect
  split <;> rfl

theorem Deinit_sd_pins (w : World) : (Deinit w).sd_pins = w.sd_pins := by
  unfold Deinit
  dsimp only
  split <;> rfl

/-- Reading fails as soon as the namespace cannot be opened or one key is unreadable; the
state is then returned as it was. -/
theorem LoadPinmapFromNvs_fail (flash : NvsFlash) (w : World)
    (h : flash.nvs_open "wifi" = none ∨
      ∃ nvs, flash.nvs_open "wifi" = some nvs ∧
        (nvs "sd_clk" = none ∨ nvs "sd_cmd" = none ∨ nvs "sd_d0" = none ∨ nvs "sd_d3" = none)) :
    LoadPinmapFromNvs flash w = (false, w) := by
  unfold LoadPinmapFromNvs
  rcases h with h | ⟨nvs, hn, hk⟩
  · rw [h]
  · rw [hn]
    dsimp only
    split
    · rename_i h1 h2 h3 h4
      rcases hk with hk | hk | hk | hk <;> simp_all
    · rfl

/-- Reading succeeds when the namespace opens and the four keys are readable; the pin map
becomes the four stored values. -/
theorem LoadPinmapFromNvs_ok (flash : NvsFlash) (w : World) (nvs : String → Option Int)
    (clk cmd d0 d3 : Int) (hn : flash.nvs_open "wifi" = some nvs)
    (h1 : nvs "sd_clk" = some clk) (h2 : nvs "sd_cmd" = some cmd)
    (h3 : nvs "sd_d0" = some d0) (h4 : nvs "sd_d3" = some d3) :
    LoadPinmapFromNvs flash w
      = (true, { w with sd_pins := { clk := clk, cmd := cmd, d0 := d0, d3 := d3 } }) := by
  unfold LoadPinmapFromNvs
  rw [hn]
  dsimp only
  rw [h1, h2, h3, h4]

/-! ## Pin resolution -/

/-- C1: whenever the namespace cannot be opened or at least one of the four keys is
unreadable, the pin map after `Init` is the compiled-in default (17, 18, 21, 13), whatever
the pin map was before and whatever the readable keys hold. -/
theorem C1_init_falls_back_to_full_default (flash : NvsFlash) (env : Env) (w : World)
    (h : flash.nvs_open "wifi" = none ∨
      ∃ nvs, flash.nvs_open "wifi" = some nvs ∧
        (nvs "sd_clk" = none ∨ nvs "sd_cmd" = none ∨ nvs "sd_d0" = none ∨ nvs "sd_d3" = none)) :
    (Init flash env w).2.sd_pins
      = { clk := 17, cmd := 18, d0 := 21, d3 := 13 } := by
  unfold Init
  dsimp only
  rw [Loop_sd_pins, configDetect_sd_pins, LoadPinmapFromNvs_fail flash w h]
  rfl

/-- C1 at scenario C: `sd_cmd`, `sd_d0`, `sd_d3` stored as 5, 6, 7 and `sd_clk` missing,
previous pin map (1, 2, 3, 4). -/
theorem C1_init_falls_back_to_full_default_witness :
    (Init (flashOf none (some 5) (some 6) (some 7)) envGood
        { World.initial with sd_pins := { clk := 1, cmd := 2, d0 := 3, d3 := 4 } }).2.sd_pins
      = { clk := 17, cmd := 18, d0 := 21, d3 := 13 } :=
  C1_init_falls_back_to_full_default (flashOf none (some 5) (some 6) (some 7)) envGood
    { World.initial with sd_pins := { clk := 1, cmd := 2, d0 := 3, d3 := 4 } }
    (Or.inr ⟨_, rfl, Or.inl rfl⟩)

/-- C2: when the namespace opens and the four keys are readable, `LoadPinmapFromNvs`
succeeds, and the pin map after it, after `Init` and after `ReinitFromNvs` is exactly the
four stored values, whatever the pin map was before. -/
theorem C2_stored_pins_applied_exactly (flash : NvsFlash) (env : Env) (w : World)
    (nvs : String → Option Int) (clk cmd d0 d3 : Int)
    (hn : flash.nvs_open "wifi" = some nvs)
    (h1 : nvs "sd_clk" = some clk) (h2 : nvs "sd_cmd" = some cmd)
    (h3 : nvs "sd_d0" = some d0) (h4 : nvs "sd_d3" = some d3) :
    (LoadPinmapFromNvs flash w).1 = true
    ∧ (LoadPinmapFromNvs flash w).2.sd_pins = { clk := clk, cmd := cmd, d0 := d0, d3 := d3 }
    ∧ (Init flash env w).2.sd_pins = { clk := clk, cmd := cmd, d0 := d0, d3 := d3 }
    ∧ (ReinitFromNvs flash env w).2.sd_pins
        = { clk := clk, cmd := cmd, d0 := d0, d3 := d3 } := by
  refine ⟨?_, ?_, ?_, ?_⟩
  · rw [LoadPinmapFromNvs_ok flash w nvs clk cmd d0 d3 hn h1 h2 h3 h4]
  · rw [LoadPinmapFromNvs_ok flash w nvs clk cmd d0 d3 hn h1 h2 h3 h4]
  · unfold Init
    dsimp only
    rw [Loop_sd_pins, configDetect_sd_pins,
      LoadPinmapFromNvs_ok flash w nvs clk cmd d0 d3 hn h1 h2 h3 h4]
    rfl
  · unfold ReinitFromNvs
    dsimp only
    rw [LoadPinmapFromNvs_ok flash (Deinit w) nvs clk cmd d0 d3 hn h1 h2 h3 h4]
    simp only [Bool.true_eq_false, if_false]
    rw [Loop_sd_pins, configDetect_sd_pins]

/-- C2 at a partition storing (4, 5, 6, 7), starting from the freshly constructed state. -/
theorem C2_stored_pins_applied_exactly_witness :
    (LoadPinmapFromNvs (flashOf (some 4) (some 5) (some 6) (some 7)) World.initial).1 = true
    ∧ (LoadPinmapFromNvs (flashOf (some 4) (some 5) (some 6) (some 7)) World.initial).2.sd_pins
        = { clk := 4, cmd := 5, d0 := 6, d3 := 7 }
    ∧ (Init (flashOf (some 4) (some 5) (some 6) (some 7)) envGood World.initial).2.sd_pins
        = { clk := 4, cmd := 5, d0 := 6, d3 := 7 }
    ∧ (ReinitFromNvs (flashOf (some 4) (some 5) (some 6) (some 7)) envGood World.initial).2.sd_pins
        = { clk := 4, cmd := 5, d0 := 6, d3 := 7 } :=
  C2_stored_pins_applied_exactly (flashOf (some 4) (some 5) (some 6) (some 7)) envGood
    World.initial _ 4 5 6 7 rfl rfl rfl rfl rfl

/-! ## Case analysis of `DetectInserted` and `Loop` -/

theorem DetectInserted_not_connected (env : Env) (w : World) (h : w.sd_pins.d3 = GPIO_NUM_NC) :
    DetectInserted env w = (false, w) := by
  unfold DetectInserted
  rw [if_pos h]

theorem DetectInserted_connected (env : Env) (w : World) (h : w.sd_pins.d3 ≠ GPIO_NUM_NC) :
    DetectInserted env w = (decide (env.gpio_get_level w.sd_pins.d3 = 1), sampled env w) := by
  unfold DetectInserted sampled
  rw [if_neg h]
  dsimp only [World.emit]
  split
  · rfl
  · rename_i hne
    have hs : decide (env.gpio_get_level w.sd_pins.d3 = 1) = w.inst.last_detect_state_ := by
      simpa using hne
    congr 2
    cases w with
    | mk p c i t =>
      cases i with
      | mk m l mp cn inf =>
        simp only at hs ⊢
        rw [hs]

theorem Loop_mounted (env : Env) (w : World) (h : w.inst.mounted_ = true) : Loop env w = w := by
  unfold Loop
  rw [if_pos h]

theorem Loop_not_connected (env : Env) (w : World) (h : w.sd_pins.d3 = GPIO_NUM_NC) :
    Loop env w = w := by
  unfold Loop
  rw [DetectInserted_not_connected env w h]
  simp

theorem Loop_absent (env : Env) (w : World) (hm : w.inst.mounted_ = false)
    (hd : w.sd_pins.d3 ≠ GPIO_NUM_NC) (hl : env.gpio_get_level w.sd_pins.d3 ≠ 1) :
    Loop env w = sampled env w := by
  unfold Loop
  rw [DetectInserted_connected env w hd]
  simp [hm, hl]

theorem Loop_invalid (env : Env) (w : World) (hm : w.inst.mounted_ = false)
    (hd : w.sd_pins.d3 ≠ GPIO_NUM_NC)
    (hv : w.sd_pins.clk = GPIO_NUM_NC ∨ w.sd_pins.cmd = GPIO_NUM_NC
      ∨ w.sd_pins.d0 = GPIO_NUM_NC) :
    Loop env w = sampled env w := by
  unfold Loop
  rw [DetectInserted_connected env w hd]
  have hv2 : (sampled env w).sd_pins.clk = GPIO_NUM_NC ∨ (sampled env w).sd_pins.cmd = GPIO_NUM_NC
      ∨ (sampled env w).sd_pins.d0 = GPIO_NUM_NC := hv
  rw [if_neg (by simp [hm])]
  dsimp only
  rw [if_pos hv2]
  split <;> rfl

/-- Unfolding of `Loop` once it has got past its guards. -/
theorem Loop_started (env : Env) (w : World) (h : StartsMount env w) :
    Loop env w =
      if env.sdmmc_host_init ≠ ESP_OK then
        (sampled env w).emit (Event.sdmmc_host_init env.sdmmc_host_init)
      else if env.sdmmc_host_init_slot ≠ ESP_OK then
        (((sampled env w).emit (Event.sdmmc_host_init env.sdmmc_host_init)).emit
          (Event.sdmmc_host_init_slot SDMMC_HOST_SLOT_1 (Loop.slot w.sd_pins)
            env.sdmmc_host_init_slot)).emit Event.sdmmc_host_deinit
      else if env.esp_vfs_fat_sdmmc_mount ≠ ESP_OK then
        { sd_pins := w.sd_pins, s_card := none,
          inst := { (sampled env w).inst with mounted_ := false },
          trace := w.trace ++
            [Event.gpio_get_level w.sd_pins.d3 (env.gpio_get_level w.sd_pins.d3),
             Event.sdmmc_host_init env.sdmmc_host_init,
             Event.sdmmc_host_init_slot SDMMC_HOST_SLOT_1 (Loop.slot w.sd_pins)
               env.sdmmc_host_init_slot,
             Event.esp_vfs_fat_sdmmc_mount "/sdcard" Loop.host (Loop.slot w.sd_pins)
               Loop.mount_cfg env.esp_vfs_fat_sdmmc_mount env.out_card,
             Event.sdmmc_host_deinit] }
      else
        { sd_pins := w.sd_pins, s_card := some env.mount_card,
          inst := { (sampled env w).inst with
            mounted_ := true
            card_name_ := cardNameOf env.mount_card
            info_ := { w.inst.info_ with capacityMB := capacityMBOf env.mount_card } },
          trace := w.trace ++
            [Event.gpio_get_level w.sd_pins.d3 (env.gpio_get_level w.sd_pins.d3),
             Event.sdmmc_host_init env.sdmmc_host_init,
             Event.sdmmc_host_init_slot SDMMC_HOST_SLOT_1 (Loop.slot w.sd_pins)
               env.sdmmc_host_init_slot,
             Event.esp_vfs_fat_sdmmc_mount "/sdcard" Loop.host (Loop.slot w.sd_pins)
               Loop.mount_cfg env.esp_vfs_fat_sdmmc_mount env.out_card] } := by
  obtain ⟨hm, hd, hl, hc, hcmd, hd0⟩ := h
  by_cases h1 : env.sdmmc_host_init = ESP_OK <;>
  by_cases h2 : env.sdmmc_host_init_slot = ESP_OK <;>
  by_cases h3 : env.esp_vfs_fat_sdmmc_mount = ESP_OK <;>
  simp [Loop, DetectInserted_connected env w hd, hm, hl, hc, hcmd, hd0, h1, h2, h3,
    World.emit, sampled]

/-! ## Invariant of reachable states -/

theorem hostInitialized_append (t l : List Event) :
    hostInitialized (t ++ l) = l.foldl hostStep (hostInitialized t) := by
  simp [hostInitialized, List.foldl_append]

theorem mountSucceeded_append (t l : List Event) :
    mountSucceeded (t ++ l) = (mountSucceeded t || mountSucceeded l) := by
  simp [mountSucceeded, List.any_append]

theorem hostInitCalls_append (t l : List Event) :
    hostInitCalls (t ++ l) = hostInitCalls t + hostInitCalls l := by
  simp [hostInitCalls, List.countP_append]

theorem Inv_initial : Inv World.initial :=
  ⟨rfl, rfl, rfl, fun _ => ⟨rfl, rfl⟩⟩

theorem Inv_sampled (env : Env) (w : World) (h : Inv w) : Inv (sampled env w) := by
  obtain ⟨hc, hh, hp, hf⟩ := h
  refine ⟨hc, ?_, hp, ?_⟩
  · show hostInitialized (w.trace ++ _) = w.inst.mounted_
    rw [hostInitialized_append]
    exact hh
  · show mountSucceeded (w.trace ++ _) = false → _
    rw [mountSucceeded_append]
    intro hx
    apply hf
    simpa [mountSucceeded] using hx

theorem Inv_Loop (env : Env) (w : World) (h : Inv w) : Inv (Loop env w) := by
  by_cases hm : w.inst.mounted_ = true
  · rw [Loop_mounted env w hm]; exact h
  have hm : w.inst.mounted_ = false := by simpa using hm
  by_cases hd : w.sd_pins.d3 = GPIO_NUM_NC
  · rw [Loop_not_connected env w hd]; exact h
  by_cases hl : env.gpio_get_level w.sd_pins.d3 = 1
  swap
  · rw [Loop_absent env w hm hd hl]; exact Inv_sampled env w h
  by_cases hv : w.sd_pins.clk = GPIO_NUM_NC ∨ w.sd_pins.cmd = GPIO_NUM_NC
      ∨ w.sd_pins.d0 = GPIO_NUM_NC
  · rw [Loop_invalid env w hm hd hv]; exact Inv_sampled env w h
  have hs : StartsMount env w :=
    ⟨hm, hd, hl, fun x => hv (Or.inl x), fun x => hv (Or.inr (Or.inl x)),
      fun x => hv (Or.inr (Or.inr x))⟩
  rw [Loop_started env w hs]
  obtain ⟨hc, hh, hp, hf⟩ := h
  have hc2 : w.s_card.isSome = false := by rw [hc, hm]
  have hh2 : hostInitialized w.trace = false := by rw [hh, hm]
  by_cases h1 : env.sdmmc_host_init = ESP_OK
  · by_cases h2 : env.sdmmc_host_init_slot = ESP_OK
    · by_cases h3 : env.esp_vfs_fat_sdmmc_mount = ESP_OK
      · simp only [h1, h2, h3, ne_eq, not_true_eq_false, if_false]
        refine ⟨rfl, ?_, hp, ?_⟩
        · simp [hostInitialized_append, hostStep]
        · simp [mountSucceeded_append, mountSucceeded]
      · simp only [h1, h2, h3, ne_eq, not_true_eq_false, not_false_eq_true, if_false, if_true]
        refine ⟨rfl, ?_, hp, ?_⟩
        · simp [hostInitialized_append, hostStep]
        · intro hx
          apply hf
          simpa [mountSucceeded_append, mountSucceeded, h3] using hx
    · simp only [h1, h2, ne_eq, not_true_eq_false, not_false_eq_true, if_false, if_true]
      refine ⟨?_, ?_, hp, ?_⟩
      · simp [World.emit, sampled, hc2, hm]
      · simp [World.emit, sampled, hostInitialized_append, hostStep, hm]
      · intro hx
        apply hf
        simpa [World.emit, sampled, mountSucceeded_append, mountSucceeded] using hx
  · simp only [h1, ne_eq, not_false_eq_true, if_true]
    refine ⟨?_, ?_, hp, ?_⟩
    · simp [World.emit, sampled, hc2, hm]
    · simp [World.emit, sampled, hostInitialized_append, hostStep, hm, hh2, h1]
    · intro hx
      apply hf
      simpa [World.emit, sampled, mountSucceeded_append, mountSucceeded] using hx

theorem Inv_Deinit (w : World) (h : Inv w) : Inv (Deinit w) := by
  obtain ⟨hc, hh, hp, hf⟩ := h
  unfold Deinit
  by_cases hm : w.inst.mounted_ = true
  · simp only [hm, if_true]
    refine ⟨rfl, ?_, hp, ?_⟩
    · simp [World.emit, hostInitialized_append, hostStep]
    · intro hx
      apply hf
      simpa [World.emit, mountSucceeded_append, mountSucceeded] using hx
  · have hm2 : w.inst.mounted_ = false := by simpa using hm
    simp only [hm2, Bool.false_eq_true, if_false]
    refine ⟨?_, ?_, hp, ?_⟩
    · simp [World.emit, hc, hm2]
    · simp [World.emit, hostInitialized_append, hostStep, hm2]
    · intro hx
      apply hf
      simpa [World.emit, mountSucceeded_append, mountSucceeded] using hx

theorem Inv_configDetect (w : World) (h : Inv w) : Inv (configDetect w) := by
  obtain ⟨hc, hh, hp, hf⟩ := h
  unfold configDetect
  split
  · refine ⟨hc, ?_, hp, ?_⟩
    · simpa [World.emit, hostInitialized_append, hostStep] using hh
    · intro hx
      apply hf
      simpa [World.emit, mountSucceeded_append, mountSucceeded] using hx
  · exact ⟨hc, hh, hp, hf⟩

/-- Pin resolution changes nothing but the pin map. -/
theorem LoadPinmapFromNvs_frame (flash : NvsFlash) (w : World) :
    (LoadPinmapFromNvs flash w).2.s_card = w.s_card
    ∧ (LoadPinmapFromNvs flash w).2.inst = w.inst
    ∧ (LoadPinmapFromNvs flash w).2.trace = w.trace := by
  unfold LoadPinmapFromNvs
  split
  · exact ⟨rfl, rfl, rfl⟩
  · split
    · exact ⟨rfl, rfl, rfl⟩
    · exact ⟨rfl, rfl, rfl⟩

theorem Inv_of_frame (w v : World) (h : Inv w) (hc : v.s_card = w.s_card)
    (hi : v.inst = w.inst) (ht : v.trace = w.trace) : Inv v := by
  obtain ⟨h1, h2, h3, h4⟩ := h
  refine ⟨?_, ?_, ?_, ?_⟩
  · rw [hc, hi]; exact h1
  · rw [ht, hi]; exact h2
  · rw [hi]; exact h3
  · rw [ht, hi]; exact h4

theorem Inv_LoadPinmapFromNvs (flash : NvsFlash) (w : World) (h : Inv w) :
    Inv (LoadPinmapFromNvs flash w).2 :=
  Inv_of_frame w _ h (LoadPinmapFromNvs_frame flash w).1 (LoadPinmapFromNvs_frame flash w).2.1
    (LoadPinmapFromNvs_frame flash w).2.2

theorem Inv_Init (flash : NvsFlash) (env : Env) (w : World) (h : Inv w) :
    Inv (Init flash env w).2 := by
  unfold Init
  dsimp only
  apply Inv_Loop
  apply Inv_configDetect
  split
  · exact Inv_LoadPinmapFromNvs flash w h
  · exact Inv_of_frame _ _ (Inv_LoadPinmapFromNvs flash w h) rfl rfl rfl

theorem Inv_ReinitFromNvs (flash : NvsFlash) (env : Env) (w : World) (h : Inv w) :
    Inv (ReinitFromNvs flash env w).2 := by
  unfold ReinitFromNvs
  dsimp only
  split
  · exact Inv_LoadPinmapFromNvs flash _ (Inv_Deinit w h)
  · exact Inv_Loop env _ (Inv_configDetect _ (Inv_LoadPinmapFromNvs flash _ (Inv_Deinit w h)))

theorem Inv_step (w : World) (op : Op) (h : Inv w) : Inv (step w op) := by
  cases op with
  | Init flash env => exact Inv_Init flash env w h
  | ReinitFromNvs flash env => exact Inv_ReinitFromNvs flash env w h
  | Loop env => exact Inv_Loop env w h
  | Deinit => exact Inv_Deinit w h

theorem Inv_run (ops : List Op) (w : World) (h : Inv w) : Inv (run ops w) := by
  induction ops generalizing w with
  | nil => exact h
  | cons op rest ih => exact ih (step w op) (Inv_step w op h)

/-- Every reachable state satisfies the invariant. -/
theorem Reachable.inv {w : World} (h : Reachable w) : Inv w := by
  obtain ⟨ops, rfl⟩ := h
  exact Inv_run ops World.initial Inv_initial

/-! ## Outcome of one `Loop` call -/

theorem Loop_started_mounted (env : Env) (w : World) (h : StartsMount env w) :
    (Loop env w).inst.mounted_ = stagesSucceed env := by
  rw [Loop_started env w h]
  have hm := h.unmounted
  by_cases h1 : env.sdmmc_host_init = ESP_OK <;>
  by_cases h2 : env.sdmmc_host_init_slot = ESP_OK <;>
  by_cases h3 : env.esp_vfs_fat_sdmmc_mount = ESP_OK <;>
  simp [h1, h2, h3, stagesSucceed, World.emit, sampled, hm]

theorem Loop_started_calls (env : Env) (w : World) (h : StartsMount env w) :
    hostInitCalls (Loop env w).trace = hostInitCalls w.trace + 1 := by
  rw [Loop_started env w h]
  by_cases h1 : env.sdmmc_host_init = ESP_OK <;>
  by_cases h2 : env.sdmmc_host_init_slot = ESP_OK <;>
  by_cases h3 : env.esp_vfs_fat_sdmmc_mount = ESP_OK <;>
  simp [h1, h2, h3, World.emit, sampled, hostInitCalls_append, hostInitCalls]

/-- A `Loop` call that does not get past its guards leaves the controller as mounted or
unmounted as it was. -/
theorem Loop_not_started_mounted (env : Env) (w : World) (h : ¬ StartsMount env w) :
    (Loop env w).inst.mounted_ = w.inst.mounted_ := by
  by_cases hm : w.inst.mounted_ = true
  · rw [Loop_mounted env w hm]
  have hm : w.inst.mounted_ = false := by simpa using hm
  by_cases hd : w.sd_pins.d3 = GPIO_NUM_NC
  · rw [Loop_not_connected env w hd]
  by_cases hl : env.gpio_get_level w.sd_pins.d3 = 1
  swap
  · rw [Loop_absent env w hm hd hl]; rfl
  by_cases hv : w.sd_pins.clk = GPIO_NUM_NC ∨ w.sd_pins.cmd = GPIO_NUM_NC
      ∨ w.sd_pins.d0 = GPIO_NUM_NC
  · rw [Loop_invalid env w hm hd hv]; rfl
  · exact absurd ⟨hm, hd, hl, fun x => hv (Or.inl x), fun x => hv (Or.inr (Or.inl x)),
      fun x => hv (Or.inr (Or.inr x))⟩ h

/-- Name and info after `Loop` are the old ones unless this call mounted the card. -/
theorem Loop_keeps_card_info (env : Env) (w : World) (h : (Loop env w).inst.mounted_ = false) :
    (Loop env w).inst.card_name_ = w.inst.card_name_
    ∧ (Loop env w).inst.info_ = w.inst.info_ := by
  by_cases hm : w.inst.mounted_ = true
  · rw [Loop_mounted env w hm]; exact ⟨rfl, rfl⟩
  have hm : w.inst.mounted_ = false := by simpa using hm
  by_cases hd : w.sd_pins.d3 = GPIO_NUM_NC
  · rw [Loop_not_connected env w hd]; exact ⟨rfl, rfl⟩
  by_cases hl : env.gpio_get_level w.sd_pins.d3 = 1
  swap
  · rw [Loop_absent env w hm hd hl]; exact ⟨rfl, rfl⟩
  by_cases hv : w.sd_pins.clk = GPIO_NUM_NC ∨ w.sd_pins.cmd = GPIO_NUM_NC
      ∨ w.sd_pins.d0 = GPIO_NUM_NC
  · rw [Loop_invalid env w hm hd hv]; exact ⟨rfl, rfl⟩
  have hs : StartsMount env w :=
    ⟨hm, hd, hl, fun x => hv (Or.inl x), fun x => hv (Or.inr (Or.inl x)),
      fun x => hv (Or.inr (Or.inr x))⟩
  have hst : stagesSucceed env = false := by rw [← Loop_started_mounted env w hs]; exact h
  rw [Loop_started env w hs]
  by_cases h1 : env.sdmmc_host_init = ESP_OK
  · by_cases h2 : env.sdmmc_host_init_slot = ESP_OK
    · by_cases h3 : env.esp_vfs_fat_sdmmc_mount = ESP_OK
      · simp [stagesSucceed, h1, h2, h3] at hst
      · simp only [h1, h2, h3, ne_eq, not_true_eq_false, not_false_eq_true, if_false, if_true]
        exact ⟨rfl, rfl⟩
    · simp only [h1, h2, ne_eq, not_true_eq_false, not_false_eq_true, if_false, if_true]
      exact ⟨rfl, rfl⟩
  · simp only [h1, ne_eq, not_false_eq_true, if_true]
    exact ⟨rfl, rfl⟩

theorem Deinit_mounted (w : World) : (Deinit w).inst.mounted_ = false := by
  unfold Deinit
  by_cases hm : w.inst.mounted_ = true
  · simp [hm, World.emit]
  · have hm2 : w.inst.mounted_ = false := by simpa using hm
    simp [hm2, World.emit]

theorem Deinit_trace (w : World) :
    (Deinit w).trace = w.trace
      ++ (if w.inst.mounted_ then
            [Event.esp_vfs_fat_sdcard_unmount w.inst.mount_point_ w.s_card] else [])
      ++ [Event.sdmmc_host_deinit] := by
  unfold Deinit
  by_cases hm : w.inst.mounted_ = true
  · simp [hm, World.emit]
  · have hm2 : w.inst.mounted_ = false := by simpa using hm
    simp [hm2, World.emit]

theorem Deinit_keeps_card_info (w : World) :
    (Deinit w).inst.card_name_ = w.inst.card_name_ ∧ (Deinit w).inst.info_ = w.inst.info_ := by
  unfold Deinit
  by_cases hm : w.inst.mounted_ = true
  · simp [hm, World.emit]
  · have hm2 : w.inst.mounted_ = false := by simpa using hm
    simp [hm2, World.emit]

theorem configDetect_inst (w : World) : (configDetect w).inst = w.inst := by
  unfold configDetect
  split <;> rfl

theorem run_loops_mounted (envs : List Env) (w : World) (h : w.inst.mounted_ = true) :
    run (envs.map Op.Loop) w = w := by
  induction envs with
  | nil => rfl
  | cons e rest ih =>
    show run (rest.map Op.Loop) (Loop e w) = w
    rw [Loop_mounted e w h]
    exact ih

/-! ## Mount failure handling -/

/-- Where `Init` calls `Loop` (line 113): on a state that satisfies the invariant whenever
the state `Init` was called in does. -/
theorem Init_runs_Loop (flash : NvsFlash) (env : Env) (w : World) (h : Inv w) :
    ∃ u : World, Inv u ∧ (Init flash env w).2 = Loop env u := by
  unfold Init
  dsimp only
  split
  · exact ⟨_, Inv_configDetect _ (Inv_LoadPinmapFromNvs flash w h), rfl⟩
  · exact ⟨configDetect { (LoadPinmapFromNvs flash w).2 with sd_pins := sd_pins_default },
      Inv_configDetect _ (Inv_of_frame (LoadPinmapFromNvs flash w).2 _
        (Inv_LoadPinmapFromNvs flash w h) rfl rfl rfl), rfl⟩

/-- Where `ReinitFromNvs` calls `Loop` (line 143): either it returns before the call, having
made only the calls of `Deinit`, or it calls `Loop` on a state that satisfies the invariant
whenever the state `ReinitFromNvs` was called in does. -/
theorem ReinitFromNvs_runs_Loop (flash : NvsFlash) (env : Env) (w : World) (h : Inv w) :
    ((ReinitFromNvs flash env w).1 = ESP_FAIL
      ∧ (ReinitFromNvs flash env w).2.trace = (Deinit w).trace
      ∧ (ReinitFromNvs flash env w).2.inst = (Deinit w).inst
      ∧ (ReinitFromNvs flash env w).2.s_card = (Deinit w).s_card)
    ∨ ∃ u : World, Inv u ∧ (ReinitFromNvs flash env w).2 = Loop env u := by
  unfold ReinitFromNvs
  dsimp only
  split
  · exact Or.inl ⟨rfl, (LoadPinmapFromNvs_frame flash (Deinit w)).2.2,
      (LoadPinmapFromNvs_frame flash (Deinit w)).2.1, (LoadPinmapFromNvs_frame flash (Deinit w)).1⟩
  · exact Or.inr ⟨_, Inv_configDetect _ (Inv_LoadPinmapFromNvs flash _ (Inv_Deinit w h)), rfl⟩

/-- C3: in every state that satisfies the invariant of the controller, which covers the
states in which `Loop` is called by the application and those in which `Init` and
`ReinitFromNvs` call it, a `Loop` call that starts a mount sequence in which host init, slot
init or the filesystem mount fails returns with the controller unmounted, the card handle
null and the host controller not initialized; when host init had succeeded the last vendor
call made is `sdmmc_host_deinit`. -/
theorem C3_failed_mount_sequence_leaves_nothing_behind (env : Env) (w : World)
    (hinv : Inv w) (hs : StartsMount env w)
    (hfail : env.sdmmc_host_init ≠ ESP_OK ∨ env.sdmmc_host_init_slot ≠ ESP_OK
      ∨ env.esp_vfs_fat_sdmmc_mount ≠ ESP_OK) :
    IsMounted (Loop env w) = false
    ∧ (Loop env w).s_card = none
    ∧ hostInitialized (Loop env w).trace = false
    ∧ (env.sdmmc_host_init = ESP_OK →
        (Loop env w).trace.getLast? = some Event.sdmmc_host_deinit) := by
  have hm : (Loop env w).inst.mounted_ = false := by
    rw [Loop_started_mounted env w hs]
    unfold stagesSucceed
    rcases hfail with h | h | h <;> simp [h]
  have hi := Inv_Loop env w hinv
  refine ⟨hm, ?_, ?_, ?_⟩
  · have hc := hi.card
    rw [hm] at hc
    cases hx : (Loop env w).s_card with
    | none => rfl
    | some c => rw [hx] at hc; simp at hc
  · rw [hi.host, hm]
  · intro h1
    rw [Loop_started env w hs]
    by_cases h2 : env.sdmmc_host_init_slot = ESP_OK
    · have h3 : env.esp_vfs_fat_sdmmc_mount ≠ ESP_OK := by
        rcases hfail with h | h | h
        · exact absurd h1 h
        · exact absurd h2 h
        · exact h
      simp [h1, h2, h3]
    · simp [h1, h2, World.emit]

/-- C3 at boot: empty NVS, a card detected on the default pins whose filesystem cannot be
mounted; the failing mount sequence is the one `Init` starts through `Loop`. -/
theorem C3_failed_mount_sequence_leaves_nothing_behind_witness :
    IsMounted (Init flashEmpty (envOf 1 ESP_OK ESP_OK ESP_FAIL) World.initial).2 = false
    ∧ (Init flashEmpty (envOf 1 ESP_OK ESP_OK ESP_FAIL) World.initial).2.s_card = none
    ∧ hostInitialized (Init flashEmpty (envOf 1 ESP_OK ESP_OK ESP_FAIL) World.initial).2.trace
        = false
    ∧ ((envOf 1 ESP_OK ESP_OK ESP_FAIL).sdmmc_host_init = ESP_OK →
        (Init flashEmpty (envOf 1 ESP_OK ESP_OK ESP_FAIL) World.initial).2.trace.getLast?
          = some Event.sdmmc_host_deinit) :=
  C3_failed_mount_sequence_leaves_nothing_behind (envOf 1 ESP_OK ESP_OK ESP_FAIL)
    (configDetect { World.initial with sd_pins := sd_pins_default })
    (Inv_configDetect _ (Inv_of_frame _ _ Inv_initial rfl rfl rfl))
    ⟨rfl, by decide, rfl, by decide, by decide, by decide⟩
    (Or.inr (Or.inr (by decide)))

/-! ## Mount attempts per insertion -/

/-- C4 fails: after booting without a card, two successive `Loop` calls that both read the
detect line as inserted and whose mount stage fails call `sdmmc_host_init` twice, and the
controller is still unmounted. -/
theorem C4_counterexample_mount_retried_every_poll :
    hostInitCalls worldBooted.trace = 0
    ∧ hostInitCalls
        (run [Op.Loop (envOf 1 ESP_OK ESP_OK ESP_FAIL), Op.Loop (envOf 1 ESP_OK ESP_OK ESP_FAIL)]
          worldBooted).trace = 2
    ∧ IsMounted
        (run [Op.Loop (envOf 1 ESP_OK ESP_OK ESP_FAIL), Op.Loop (envOf 1 ESP_OK ESP_OK ESP_FAIL)]
          worldBooted) = false := by
  refine ⟨?_, ?_, ?_⟩ <;> rfl

/-- C4 amended: starting unmounted with a valid pin map, over any sequence of `Loop` calls
that all read the detect line as inserted, `sdmmc_host_init` is called once by every `Loop`
up to and including the first whose three stages succeed, and by none after it. -/
theorem C4_mount_attempted_each_poll_until_success (envs : List Env) (w : World)
    (hm : w.inst.mounted_ = false) (hd3 : w.sd_pins.d3 ≠ GPIO_NUM_NC)
    (hclk : w.sd_pins.clk ≠ GPIO_NUM_NC) (hcmd : w.sd_pins.cmd ≠ GPIO_NUM_NC)
    (hd0 : w.sd_pins.d0 ≠ GPIO_NUM_NC)
    (hl : ∀ e ∈ envs, e.gpio_get_level w.sd_pins.d3 = 1) :
    hostInitCalls (run (envs.map Op.Loop) w).trace
      = hostInitCalls w.trace
        + min envs.length ((envs.takeWhile fun e => !stagesSucceed e).length + 1) := by
  induction envs generalizing w with
  | nil => rfl
  | cons e rest ih =>
    have hs : StartsMount e w := ⟨hm, hd3, hl e (List.mem_cons_self e rest), hclk, hcmd, hd0⟩
    show hostInitCalls (run (rest.map Op.Loop) (Loop e w)).trace = _
    by_cases hst : stagesSucceed e = true
    · have hmt : (Loop e w).inst.mounted_ = true := by rw [Loop_started_mounted e w hs, hst]
      rw [run_loops_mounted rest (Loop e w) hmt, Loop_started_calls e w hs]
      simp [List.takeWhile, hst]
    · have hst2 : stagesSucceed e = false := by simpa using hst
      have hmf : (Loop e w).inst.mounted_ = false := by rw [Loop_started_mounted e w hs, hst2]
      have hp : (Loop e w).sd_pins = w.sd_pins := Loop_sd_pins e w
      rw [ih (Loop e w) hmf (by rw [hp]; exact hd3) (by rw [hp]; exact hclk)
        (by rw [hp]; exact hcmd) (by rw [hp]; exact hd0)
        (by rw [hp]; exact fun x hx => hl x (List.mem_cons_of_mem e hx)),
        Loop_started_calls e w hs]
      simp only [List.takeWhile, hst2, Bool.not_false, List.length_cons]
      omega

/-- C4 amended, at three polls of a card whose mount fails twice and then succeeds. -/
theorem C4_mount_attempted_each_poll_until_success_witness :
    hostInitCalls
        (run ([envOf 1 ESP_OK ESP_OK ESP_FAIL, envOf 1 ESP_OK ESP_FAIL ESP_OK, envGood,
            envGood].map Op.Loop) worldBooted).trace
      = hostInitCalls worldBooted.trace
        + min [envOf 1 ESP_OK ESP_OK ESP_FAIL, envOf 1 ESP_OK ESP_FAIL ESP_OK, envGood,
              envGood].length
            (([envOf 1 ESP_OK ESP_OK ESP_FAIL, envOf 1 ESP_OK ESP_FAIL ESP_OK, envGood,
              envGood].takeWhile fun e => !stagesSucceed e).length + 1) :=
  C4_mount_attempted_each_poll_until_success _ worldBooted rfl (by decide) (by decide)
    (by decide) (by decide) (by
      intro e he
      simp only [List.mem_cons, List.mem_singleton, List.not_mem_nil, or_false] at he
      rcases he with rfl | rfl | rfl | rfl <;> rfl)

/-! ## Card name and info across unmount -/

/-- C5 fails: booting with a card that mounts and then calling `Deinit` gives a reachable,
unmounted state in which `GetCardName()` is still "SD32G", not the empty string, and
`GetCardInfo().capacityMB` is still 59, not 0. -/
theorem C5_counterexample_card_info_survives_deinit :
    Reachable (Deinit worldMounted)
    ∧ IsMounted (Deinit worldMounted) = false
    ∧ GetCardName (Deinit worldMounted) = "SD32G"
    ∧ GetCardName (Deinit worldMounted) ≠ ""
    ∧ (GetCardInfo (Deinit worldMounted)).capacityMB = 59
    ∧ (GetCardInfo (Deinit worldMounted)).capacityMB ≠ 0 :=
  ⟨⟨[Op.Init flashEmpty envGood, Op.Deinit], rfl⟩, rfl, rfl, by decide, rfl, by decide⟩

/-- C5 amended: in every reachable state, `Deinit` and every `Loop` call that returns
unmounted leave `GetCardName()` and `GetCardInfo()` as they were, so they keep what the
most recent successful mount captured; they are the constructor's cleared values as long as
no mount has succeeded. -/
theorem C5_card_info_kept_across_unmount (w : World) (hr : Reachable w) :
    (GetCardName (Deinit w) = GetCardName w ∧ GetCardInfo (Deinit w) = GetCardInfo w)
    ∧ (∀ env : Env, IsMounted (Loop env w) = false →
        GetCardName (Loop env w) = GetCardName w ∧ GetCardInfo (Loop env w) = GetCardInfo w)
    ∧ (mountSucceeded w.trace = false →
        GetCardName w = "" ∧ GetCardInfo w = { capacityMB := 0, speedKBps := 0 }) :=
  ⟨Deinit_keeps_card_info w, fun env h => Loop_keeps_card_info env w h, hr.inv.fresh⟩

/-- C5 amended, at the state reached by booting with a card that mounts. -/
theorem C5_card_info_kept_across_unmount_witness :
    GetCardName (Deinit worldMounted) = GetCardName worldMounted
    ∧ GetCardInfo (Deinit worldMounted) = GetCardInfo worldMounted :=
  (C5_card_info_kept_across_unmount worldMounted ⟨[Op.Init flashEmpty envGood], rfl⟩).1

/-! ## `ReinitFromNvs` -/

/-- C6: when the namespace cannot be opened or one of the four keys is unreadable,
`ReinitFromNvs` returns `ESP_FAIL`, ends unmounted, and the only vendor calls it makes are
the unmount (if and only if it was mounted) followed by `sdmmc_host_deinit`: no
`gpio_set_direction`, `gpio_pullup_en`, host init, slot init or mount. -/
theorem C6_reinit_without_stored_pins_only_unmounts (flash : NvsFlash) (env : Env) (w : World)
    (h : flash.nvs_open "wifi" = none ∨
      ∃ nvs, flash.nvs_open "wifi" = some nvs ∧
        (nvs "sd_clk" = none ∨ nvs "sd_cmd" = none ∨ nvs "sd_d0" = none ∨ nvs "sd_d3" = none)) :
    (ReinitFromNvs flash env w).1 = ESP_FAIL
    ∧ (ReinitFromNvs flash env w).1 ≠ ESP_OK
    ∧ IsMounted (ReinitFromNvs flash env w).2 = false
    ∧ (ReinitFromNvs flash env w).2.trace
        = w.trace
          ++ (if w.inst.mounted_ then
                [Event.esp_vfs_fat_sdcard_unmount w.inst.mount_point_ w.s_card] else [])
          ++ [Event.sdmmc_host_deinit] := by
  have hx : ReinitFromNvs flash env w = (ESP_FAIL, Deinit w) := by
    unfold ReinitFromNvs
    dsimp only
    rw [LoadPinmapFromNvs_fail flash (Deinit w) h]
    simp
  rw [hx]
  have hne : ESP_FAIL ≠ ESP_OK := by decide
  exact ⟨rfl, hne, Deinit_mounted w, Deinit_trace w⟩

/-- C6 at scenario D: mounted, and the partition is now empty. -/
theorem C6_reinit_without_stored_pins_only_unmounts_witness :
    (ReinitFromNvs flashEmpty envGood worldMounted).1 = ESP_FAIL
    ∧ (ReinitFromNvs flashEmpty envGood worldMounted).1 ≠ ESP_OK
    ∧ IsMounted (ReinitFromNvs flashEmpty envGood worldMounted).2 = false
    ∧ (ReinitFromNvs flashEmpty envGood worldMounted).2.trace
        = worldMounted.trace
          ++ (if worldMounted.inst.mounted_ then
                [Event.esp_vfs_fat_sdcard_unmount worldMounted.inst.mount_point_
                  worldMounted.s_card] else [])
          ++ [Event.sdmmc_host_deinit] :=
  C6_reinit_without_stored_pins_only_unmounts flashEmpty envGood worldMounted (Or.inl rfl)

/-- C7: `ReinitFromNvs` returns `ESP_OK` exactly when the controller is mounted on return,
and `ESP_FAIL` otherwise; with the four pins stored it returns `ESP_FAIL` whenever the
stored detect pin is unset or reads other than 1, one of the stored `clk`, `cmd`, `d0` is
unset, or host init, slot init or mount fails. -/
theorem C7_reinit_result_tells_mounted (flash : NvsFlash) (env : Env) (w : World) :
    ((ReinitFromNvs flash env w).1 = ESP_OK ↔ IsMounted (ReinitFromNvs flash env w).2 = true)
    ∧ ((ReinitFromNvs flash env w).1 ≠ ESP_OK → (ReinitFromNvs flash env w).1 = ESP_FAIL)
    ∧ (∀ (nvs : String → Option Int) (clk cmd d0 d3 : Int),
        flash.nvs_open "wifi" = some nvs →
        nvs "sd_clk" = some clk → nvs "sd_cmd" = some cmd →
        nvs "sd_d0" = some d0 → nvs "sd_d3" = some d3 →
        (d3 = GPIO_NUM_NC ∨ env.gpio_get_level d3 ≠ 1
          ∨ clk = GPIO_NUM_NC ∨ cmd = GPIO_NUM_NC ∨ d0 = GPIO_NUM_NC
          ∨ env.sdmmc_host_init ≠ ESP_OK ∨ env.sdmmc_host_init_slot ≠ ESP_OK
          ∨ env.esp_vfs_fat_sdmmc_mount ≠ ESP_OK) →
        (ReinitFromNvs flash env w).1 = ESP_FAIL) := by
  have hfr := LoadPinmapFromNvs_frame flash (Deinit w)
  have hmid : (LoadPinmapFromNvs flash (Deinit w)).2.inst.mounted_ = false := by
    rw [hfr.2.1]; exact Deinit_mounted w
  have key : (ReinitFromNvs flash env w).1
      = if (ReinitFromNvs flash env w).2.inst.mounted_ then ESP_OK else ESP_FAIL := by
    unfold ReinitFromNvs
    dsimp only
    split
    · dsimp only
      rw [hmid]
      rfl
    · rfl
  refine ⟨?_, ?_, ?_⟩
  · rw [key]
    unfold IsMounted
    cases (ReinitFromNvs flash env w).2.inst.mounted_ <;> decide
  · rw [key]
    cases (ReinitFromNvs flash env w).2.inst.mounted_ <;> decide
  · intro nvs clk cmd d0 d3 hn h1 h2 h3 h4 hbad
    have hload := LoadPinmapFromNvs_ok flash (Deinit w) nvs clk cmd d0 d3 hn h1 h2 h3 h4
    have hres : ReinitFromNvs flash env w
        = (if (Loop env (configDetect (LoadPinmapFromNvs flash (Deinit w)).2)).inst.mounted_
            then ESP_OK else ESP_FAIL,
           Loop env (configDetect (LoadPinmapFromNvs flash (Deinit w)).2)) := by
      unfold ReinitFromNvs
      dsimp only
      rw [if_neg (by rw [hload]; simp)]
    have hpins : (configDetect (LoadPinmapFromNvs flash (Deinit w)).2).sd_pins
        = { clk := clk, cmd := cmd, d0 := d0, d3 := d3 } := by
      rw [configDetect_sd_pins, hload]
    have hcm : (configDetect (LoadPinmapFromNvs flash (Deinit w)).2).inst.mounted_ = false := by
      rw [configDetect_inst]; exact hmid
    have hun : (Loop env (configDetect (LoadPinmapFromNvs flash (Deinit w)).2)).inst.mounted_
        = false := by
      by_cases hs : StartsMount env (configDetect (LoadPinmapFromNvs flash (Deinit w)).2)
      · rw [Loop_started_mounted env _ hs]
        obtain ⟨_, c1, c2, c3, c4, c5⟩ := hs
        rw [hpins] at c1 c2 c3 c4 c5
        unfold stagesSucceed
        rcases hbad with hb | hb | hb | hb | hb | hb | hb | hb
        · exact absurd hb c1
        · exact absurd c2 hb
        · exact absurd hb c3
        · exact absurd hb c4
        · exact absurd hb c5
        · simp [hb]
        · simp [hb]
        · simp [hb]
      · rw [Loop_not_started_mounted env _ hs]; exact hcm
    rw [hres]
    dsimp only
    rw [hun]
    rfl

/-- C7 with pins (4, 5, 6, 7) stored and a card whose mount fails. -/
theorem C7_reinit_result_tells_mounted_witness :
    (ReinitFromNvs (flashOf (some 4) (some 5) (some 6) (some 7))
        (envOf 1 ESP_OK ESP_OK ESP_FAIL) worldMounted).1 = ESP_FAIL :=
  (C7_reinit_result_tells_mounted (flashOf (some 4) (some 5) (some 6) (some 7))
      (envOf 1 ESP_OK ESP_OK ESP_FAIL) worldMounted).2.2
    _ 4 5 6 7 rfl rfl rfl rfl rfl
    (Or.inr (Or.inr (Or.inr (Or.inr (Or.inr (Or.inr (Or.inr (by decide))))))))

/-! ## `Deinit` -/

/-- C8: in every reachable state `Deinit` leaves the controller unmounted with a null card
handle, and the vendor calls it makes are one unmount of "/sdcard" with the held handle if
and only if it was mounted, followed by exactly one `sdmmc_host_deinit`. -/
theorem C8_deinit_unmounts_then_releases_host (w : World) (hr : Reachable w) :
    IsMounted (Deinit w) = false
    ∧ (Deinit w).s_card = none
    ∧ (Deinit w).trace
        = w.trace
          ++ (if w.inst.mounted_ then [Event.esp_vfs_fat_sdcard_unmount "/sdcard" w.s_card]
              else [])
          ++ [Event.sdmmc_host_deinit] := by
  refine ⟨Deinit_mounted w, ?_, ?_⟩
  · have hc := (Inv_Deinit w hr.inv).card
    rw [Deinit_mounted] at hc
    cases hx : (Deinit w).s_card with
    | none => rfl
    | some c => rw [hx] at hc; simp at hc
  · rw [Deinit_trace, hr.inv.point]

/-- C8 at the state reached by booting with a card that mounts. -/
theorem C8_deinit_unmounts_then_releases_host_witness :
    IsMounted (Deinit worldMounted) = false
    ∧ (Deinit worldMounted).s_card = none
    ∧ (Deinit worldMounted).trace
        = worldMounted.trace
          ++ (if worldMounted.inst.mounted_ then
                [Event.esp_vfs_fat_sdcard_unmount "/sdcard" worldMounted.s_card] else [])
          ++ [Event.sdmmc_host_deinit] :=
  C8_deinit_unmounts_then_releases_host worldMounted ⟨[Op.Init flashEmpty envGood], rfl⟩

/-! ## Guards of `Loop` -/

/-- C9: when `d3` is unset, `DetectInserted` returns false and leaves the whole state,
trace and stored last-detect state included, as it was, whatever the detect line would
read; and `Loop` leaves the whole state as it was, so it starts no mount sequence. -/
theorem C9_no_detect_pin_means_not_inserted (env : Env) (w : World)
    (h : w.sd_pins.d3 = GPIO_NUM_NC) :
    DetectInserted env w = (false, w) ∧ Loop env w = w :=
  ⟨DetectInserted_not_connected env w h, Loop_not_connected env w h⟩

/-- C9 at the freshly constructed state, with a detect line that would read 1. -/
theorem C9_no_detect_pin_means_not_inserted_witness :
    DetectInserted envGood World.initial = (false, World.initial)
    ∧ Loop envGood World.initial = World.initial :=
  C9_no_detect_pin_means_not_inserted envGood World.initial rfl

/-- C10: while mounted, `Loop` returns the state exactly as it was: no vendor call is added
to the trace, and mount state, card handle, name, info and last-detect state are unchanged,
whatever the pin map and the detect line. -/
theorem C10_loop_is_noop_while_mounted (env : Env) (w : World) (h : IsMounted w = true) :
    Loop env w = w :=
  Loop_mounted env w h

/-- C10 at the state reached by booting with a card that mounts, the card then removed. -/
theorem C10_loop_is_noop_while_mounted_witness :
    Loop (envOf 0 ESP_OK ESP_OK ESP_OK) worldMounted = worldMounted :=
  C10_loop_is_noop_while_mounted (envOf 0 ESP_OK ESP_OK ESP_OK) worldMounted rfl

/-! ## Invariant of call histories -/

theorem initsWhenClear_append (b : Bool) (t l : List Event) :
    initsWhenClear b (t ++ l) = (initsWhenClear b t && initsWhenClear (t.foldl hostStep b) l) := by
  induction t generalizing b with
  | nil => simp [initsWhenClear]
  | cons e es ih => simp [initsWhenClear, ih, Bool.and_assoc]

theorem lastMountHandle_append (t l : List Event) :
    lastMountHandle (t ++ l) = l.foldl handleStep (lastMountHandle t) := by
  simp [lastMountHandle, List.foldl_append]

theorem TraceInv_initial : TraceInv World.initial :=
  ⟨rfl, fun e he => absurd he (List.not_mem_nil e), fun h => absurd h (by decide), rfl⟩

/-- Adding calls that are neither host inits nor mounts keeps the call-history facts,
provided the new state is mounted only if the old one was, with the same handle, and the
info stays. -/
theorem TraceInv_of_quiet (w v : World) (l : List Event) (h : TraceInv w)
    (ht : v.trace = w.trace ++ l)
    (hc : v.inst.mounted_ = true → w.inst.mounted_ = true ∧ v.s_card = w.s_card)
    (hs : v.inst.info_ = w.inst.info_)
    (hq : ∀ e ∈ l, (∀ b, initsWhenClear b [e] = true) ∧ Event.fixedParams e
      ∧ ∀ x, handleStep x e = x) :
    TraceInv v := by
  obtain ⟨h1, h2, h3, h4⟩ := h
  have hin : ∀ (l : List Event), (∀ e ∈ l, ∀ b, initsWhenClear b [e] = true) →
      ∀ b, initsWhenClear b l = true := by
    intro l
    induction l with
    | nil => intro _ b; rfl
    | cons e es ih =>
      intro hl b
      have he := hl e (List.mem_cons_self e es) b
      have hes := ih (fun x hx => hl x (List.mem_cons_of_mem e hx)) (hostStep b e)
      simp only [initsWhenClear, Bool.and_true] at he ⊢
      rw [he, hes]
      rfl
  have hha : ∀ (l : List Event), (∀ e ∈ l, ∀ x, handleStep x e = x) →
      ∀ x, l.foldl handleStep x = x := by
    intro l
    induction l with
    | nil => intro _ x; rfl
    | cons e es ih =>
      intro hl x
      rw [List.foldl_cons, hl e (List.mem_cons_self e es) x]
      exact ih (fun y hy => hl y (List.mem_cons_of_mem e hy)) x
  refine ⟨?_, ?_, ?_, ?_⟩
  · rw [ht, initsWhenClear_append, h1, hin l (fun e he => (hq e he).1)]
    rfl
  · intro e he
    rw [ht, List.mem_append] at he
    rcases he with he | he
    · exact h2 e he
    · exact (hq e he).2.1
  · intro hm
    rw [(hc hm).2, ht, lastMountHandle_append, hha l (fun e he => (hq e he).2.2)]
    exact h3 (hc hm).1
  · rw [hs]; exact h4

theorem TraceInv_sampled (env : Env) (w : World) (h : TraceInv w) :
    TraceInv (sampled env w) := by
  refine TraceInv_of_quiet w _
    [Event.gpio_get_level w.sd_pins.d3 (env.gpio_get_level w.sd_pins.d3)] h rfl
    (fun hm => ⟨hm, rfl⟩) rfl ?_
  intro e he
  rw [List.mem_singleton] at he
  subst he
  exact ⟨fun b => rfl, trivial, fun x => rfl⟩

theorem TraceInv_configDetect (w : World) (h : TraceInv w) : TraceInv (configDetect w) := by
  unfold configDetect
  split
  · refine TraceInv_of_quiet w _
      [Event.gpio_set_direction w.sd_pins.d3 GPIO_MODE_INPUT, Event.gpio_pullup_en w.sd_pins.d3]
      h (by simp [World.emit]) (fun hm => ⟨hm, rfl⟩) rfl ?_
    intro e he
    simp only [List.mem_cons, List.mem_singleton, List.not_mem_nil, or_false] at he
    rcases he with rfl | rfl
    · exact ⟨fun b => rfl, trivial, fun x => rfl⟩
    · exact ⟨fun b => rfl, trivial, fun x => rfl⟩
  · exact h

theorem TraceInv_Deinit (w : World) (hi : Inv w) (h : TraceInv w) : TraceInv (Deinit w) := by
  refine TraceInv_of_quiet w _
    ((if w.inst.mounted_ then
        [Event.esp_vfs_fat_sdcard_unmount w.inst.mount_point_ w.s_card] else [])
      ++ [Event.sdmmc_host_deinit]) h ?_ ?_ (Deinit_keeps_card_info w).2 ?_
  · rw [Deinit_trace, List.append_assoc]
  · intro hm
    rw [Deinit_mounted] at hm
    exact absurd hm (by decide)
  · intro e he
    rw [List.mem_append, List.mem_singleton] at he
    rcases he with he | rfl
    · split at he
      · rw [List.mem_singleton] at he
        subst he
        exact ⟨fun b => rfl, hi.point, fun x => rfl⟩
      · exact absurd he (List.not_mem_nil e)
    · exact ⟨fun b => rfl, trivial, fun x => rfl⟩

theorem TraceInv_of_frame (w v : World) (h : TraceInv w) (hc : v.s_card = w.s_card)
    (hi : v.inst = w.inst) (ht : v.trace = w.trace) : TraceInv v := by
  obtain ⟨h1, h2, h3, h4⟩ := h
  refine ⟨?_, ?_, ?_, ?_⟩
  · rw [ht]; exact h1
  · rw [ht]; exact h2
  · rw [hc, hi, ht]; exact h3
  · rw [hi]; exact h4

theorem TraceInv_Loop (env : Env) (w : World) (hi : Inv w) (h : TraceInv w) :
    TraceInv (Loop env w) := by
  by_cases hm : w.inst.mounted_ = true
  · rw [Loop_mounted env w hm]; exact h
  have hm : w.inst.mounted_ = false := by simpa using hm
  by_cases hd : w.sd_pins.d3 = GPIO_NUM_NC
  · rw [Loop_not_connected env w hd]; exact h
  by_cases hl : env.gpio_get_level w.sd_pins.d3 = 1
  swap
  · rw [Loop_absent env w hm hd hl]; exact TraceInv_sampled env w h
  by_cases hv : w.sd_pins.clk = GPIO_NUM_NC ∨ w.sd_pins.cmd = GPIO_NUM_NC
      ∨ w.sd_pins.d0 = GPIO_NUM_NC
  · rw [Loop_invalid env w hm hd hv]; exact TraceInv_sampled env w h
  have hs : StartsMount env w :=
    ⟨hm, hd, hl, fun x => hv (Or.inl x), fun x => hv (Or.inr (Or.inl x)),
      fun x => hv (Or.inr (Or.inr x))⟩
  rw [Loop_started env w hs]
  obtain ⟨h1, h2, h3, h4⟩ := h
  have hh : hostInitialized w.trace = false := by rw [hi.host, hm]
  have hfold : w.trace.foldl hostStep false = false := hh
  by_cases c1 : env.sdmmc_host_init = ESP_OK
  · by_cases c2 : env.sdmmc_host_init_slot = ESP_OK
    · by_cases c3 : env.esp_vfs_fat_sdmmc_mount = ESP_OK
      · simp only [c1, c2, c3, ne_eq, not_true_eq_false, if_false]
        refine ⟨?_, ?_, ?_, h4⟩
        · simp [initsWhenClear_append, h1, hfold, initsWhenClear, hostStep]
        · intro e he
          simp only [List.mem_append, List.mem_cons, List.mem_singleton, List.not_mem_nil,
            or_false] at he
          rcases he with he | rfl | rfl | rfl | rfl
          · exact h2 e he
          · trivial
          · trivial
          · trivial
          · exact ⟨rfl, rfl, rfl, rfl, rfl⟩
        · intro _
          simp [lastMountHandle_append, handleStep, Env.out_card, c3]
      · simp only [c1, c2, c3, ne_eq, not_true_eq_false, not_false_eq_true, if_false, if_true]
        refine ⟨?_, ?_, ?_, h4⟩
        rotate_left 2
        · intro hx
          cases hx
        · simp [initsWhenClear_append, h1, hfold, initsWhenClear, hostStep]
        · intro e he
          simp only [List.mem_append, List.mem_cons, List.mem_singleton, List.not_mem_nil,
            or_false] at he
          rcases he with he | rfl | rfl | rfl | rfl | rfl
          · exact h2 e he
          · trivial
          · trivial
          · trivial
          · exact ⟨rfl, rfl, rfl, rfl, rfl⟩
          · trivial
    · simp only [c1, c2, ne_eq, not_true_eq_false, not_false_eq_true, if_false, if_true]
      refine ⟨?_, ?_, ?_, h4⟩
      · simp [World.emit, sampled, initsWhenClear_append, h1, hfold, initsWhenClear, hostStep]
      · intro e he
        simp only [World.emit, sampled, List.mem_append, List.mem_singleton, or_assoc] at he
        rcases he with he | rfl | rfl | rfl | rfl
        · exact h2 e he
        · trivial
        · trivial
        · trivial
        · trivial
      · intro hx
        simp [World.emit, sampled, hm] at hx
  · simp only [c1, ne_eq, not_false_eq_true, if_true]
    refine ⟨?_, ?_, ?_, h4⟩
    · simp [World.emit, sampled, initsWhenClear_append, h1, hfold, initsWhenClear, hostStep]
    · intro e he
      simp only [World.emit, sampled, List.mem_append, List.mem_singleton, or_assoc] at he
      rcases he with he | rfl | rfl
      · exact h2 e he
      · trivial
      · trivial
    · intro hx
      simp [World.emit, sampled, hm] at hx

theorem TraceInv_LoadPinmapFromNvs (flash : NvsFlash) (w : World) (h : TraceInv w) :
    TraceInv (LoadPinmapFromNvs flash w).2 :=
  TraceInv_of_frame w _ h (LoadPinmapFromNvs_frame flash w).1
    (LoadPinmapFromNvs_frame flash w).2.1 (LoadPinmapFromNvs_frame flash w).2.2

theorem TraceInv_Init (flash : NvsFlash) (env : Env) (w : World) (hi : Inv w)
    (h : TraceInv w) : TraceInv (Init flash env w).2 := by
  unfold Init
  dsimp only
  split
  · exact TraceInv_Loop env _ (Inv_configDetect _ (Inv_LoadPinmapFromNvs flash w hi))
      (TraceInv_configDetect _ (TraceInv_LoadPinmapFromNvs flash w h))
  · exact TraceInv_Loop env _
      (Inv_configDetect _ (Inv_of_frame _ _ (Inv_LoadPinmapFromNvs flash w hi) rfl rfl rfl))
      (TraceInv_configDetect _
        (TraceInv_of_frame _ _ (TraceInv_LoadPinmapFromNvs flash w h) rfl rfl rfl))

theorem TraceInv_ReinitFromNvs (flash : NvsFlash) (env : Env) (w : World) (hi : Inv w)
    (h : TraceInv w) : TraceInv (ReinitFromNvs flash env w).2 := by
  unfold ReinitFromNvs
  dsimp only
  split
  · exact TraceInv_LoadPinmapFromNvs flash _ (TraceInv_Deinit w hi h)
  · exact TraceInv_Loop env _
      (Inv_configDetect _ (Inv_LoadPinmapFromNvs flash _ (Inv_Deinit w hi)))
      (TraceInv_configDetect _ (TraceInv_LoadPinmapFromNvs flash _ (TraceInv_Deinit w hi h)))

theorem TraceInv_step (w : World) (op : Op) (hi : Inv w) (h : TraceInv w) :
    TraceInv (step w op) := by
  cases op with
  | Init flash env => exact TraceInv_Init flash env w hi h
  | ReinitFromNvs flash env => exact TraceInv_ReinitFromNvs flash env w hi h
  | Loop env => exact TraceInv_Loop env w hi h
  | Deinit => exact TraceInv_Deinit w hi h

theorem TraceInv_run (ops : List Op) (w : World) (hi : Inv w) (h : TraceInv w) :
    TraceInv (run ops w) := by
  induction ops generalizing w with
  | nil => exact h
  | cons op rest ih => exact ih (step w op) (Inv_step w op hi) (TraceInv_step w op hi h)

/-- Every reachable state satisfies the call-history facts. -/
theorem Reachable.traceInv {w : World} (h : Reachable w) : TraceInv w := by
  obtain ⟨ops, rfl⟩ := h
  exact TraceInv_run ops World.initial Inv_initial TraceInv_initial

/-- One more public call from a reachable state gives a reachable state. -/
theorem Reachable.step {w : World} (h : Reachable w) (op : Op) : Reachable (step w op) := by
  obtain ⟨ops, rfl⟩ := h
  refine ⟨ops ++ [op], ?_⟩
  simp [run, List.foldl_append]

/-! ## Incomplete pin map -/

/-- C11: when at least one of `clk`, `cmd`, `d0` is unset, `Loop` makes no vendor call
other than at most the one read of the detect line, so no host init, slot init or mount,
and it leaves the controller mounted or unmounted as it was, whatever `d3` and the detect
line are. -/
theorem C11_incomplete_pin_map_never_reaches_host (env : Env) (w : World)
    (h : w.sd_pins.clk = GPIO_NUM_NC ∨ w.sd_pins.cmd = GPIO_NUM_NC
      ∨ w.sd_pins.d0 = GPIO_NUM_NC) :
    ((Loop env w).trace = w.trace
      ∨ (Loop env w).trace
          = w.trace ++ [Event.gpio_get_level w.sd_pins.d3 (env.gpio_get_level w.sd_pins.d3)])
    ∧ hostInitCalls (Loop env w).trace = hostInitCalls w.trace
    ∧ IsMounted (Loop env w) = IsMounted w := by
  by_cases hm : w.inst.mounted_ = true
  · rw [Loop_mounted env w hm]; exact ⟨Or.inl rfl, rfl, rfl⟩
  have hm : w.inst.mounted_ = false := by simpa using hm
  by_cases hd : w.sd_pins.d3 = GPIO_NUM_NC
  · rw [Loop_not_connected env w hd]; exact ⟨Or.inl rfl, rfl, rfl⟩
  · rw [Loop_invalid env w hm hd h]
    refine ⟨Or.inr rfl, ?_, rfl⟩
    show hostInitCalls (w.trace ++ _) = _
    rw [hostInitCalls_append]
    rfl

/-- C11 at the default pin map with `cmd` unset and the detect line reading 1. -/
theorem C11_incomplete_pin_map_never_reaches_host_witness :
    ((Loop envGood { worldBooted with sd_pins := { clk := 17, cmd := -1, d0 := 21, d3 := 13 } }).trace
        = worldBooted.trace
      ∨ (Loop envGood
            { worldBooted with sd_pins := { clk := 17, cmd := -1, d0 := 21, d3 := 13 } }).trace
          = worldBooted.trace ++ [Event.gpio_get_level 13 (envGood.gpio_get_level 13)])
    ∧ hostInitCalls
        (Loop envGood
          { worldBooted with sd_pins := { clk := 17, cmd := -1, d0 := 21, d3 := 13 } }).trace
        = hostInitCalls worldBooted.trace
    ∧ IsMounted
        (Loop envGood { worldBooted with sd_pins := { clk := 17, cmd := -1, d0 := 21, d3 := 13 } })
        = IsMounted worldBooted :=
  C11_incomplete_pin_map_never_reaches_host envGood
    { worldBooted with sd_pins := { clk := 17, cmd := -1, d0 := 21, d3 := 13 } }
    (Or.inr (Or.inl rfl))

/-! ## Result of `Init` -/

/-- C12: `Init` returns `ESP_OK` for every NVS content, every previous state and every
answer of the detect line, host init, slot init and mount. -/
theorem C12_init_always_reports_success (flash : NvsFlash) (env : Env) (w : World) :
    (Init flash env w).1 = ESP_OK :=
  rfl

/-! ## Repeating `ReinitFromNvs` -/

theorem Deinit_inst (w : World) : (Deinit w).inst = { w.inst with mounted_ := false } := by
  unfold Deinit
  by_cases hm : w.inst.mounted_ = true
  · simp [hm, World.emit]
  · have hm2 : w.inst.mounted_ = false := by simpa using hm
    simp only [hm2, Bool.false_eq_true, if_false, World.emit]
    cases hi : w.inst with
    | mk m l mp cn inf =>
      rw [hi] at hm2
      simp only at hm2
      subst hm2
      rfl

theorem Deinit_s_card (w : World) :
    (Deinit w).s_card = if w.inst.mounted_ then none else w.s_card := by
  unfold Deinit
  by_cases hm : w.inst.mounted_ = true
  · simp [hm, World.emit]
  · have hm2 : w.inst.mounted_ = false := by simpa using hm
    simp [hm2, World.emit]

theorem configDetect_s_card (w : World) : (configDetect w).s_card = w.s_card := by
  unfold configDetect
  split <;> rfl

/-- Running `Loop` again, with the same vendor answers and pin map, on the state its first
run left (unmounted again in between) leaves the same instance data and card handle. -/
theorem Loop_again (env : Env) (u v : World) (hu : u.inst.mounted_ = false)
    (hp : v.sd_pins = u.sd_pins)
    (hi : v.inst = { (Loop env u).inst with mounted_ := false })
    (hc : v.s_card = if (Loop env u).inst.mounted_ then none else (Loop env u).s_card) :
    (Loop env v).inst = (Loop env u).inst ∧ (Loop env v).s_card = (Loop env u).s_card := by
  have hv : v.inst.mounted_ = false := by rw [hi]
  by_cases hd : u.sd_pins.d3 = GPIO_NUM_NC
  · have e1 := Loop_not_connected env u hd
    have e2 := Loop_not_connected env v (by rw [hp]; exact hd)
    rw [e1] at hi hc
    rw [e1, e2]
    obtain ⟨pu, cu, ⟨mu, lu, mpu, cnu, infu⟩, tu⟩ := u
    obtain ⟨pv, cv, iv, tv⟩ := v
    simp only at hu hi hc ⊢
    subst hu
    simp [hi, hc]
  by_cases hl : env.gpio_get_level u.sd_pins.d3 = 1
  swap
  · have e1 := Loop_absent env u hu hd hl
    have e2 := Loop_absent env v hv (by rw [hp]; exact hd) (by rw [hp]; exact hl)
    rw [e1] at hi hc
    rw [e1, e2]
    obtain ⟨pu, cu, ⟨mu, lu, mpu, cnu, infu⟩, tu⟩ := u
    obtain ⟨pv, cv, iv, tv⟩ := v
    simp only [sampled] at hu hp hi hc ⊢
    subst hu hp
    simp [hi, hc]
  by_cases hvv : u.sd_pins.clk = GPIO_NUM_NC ∨ u.sd_pins.cmd = GPIO_NUM_NC
      ∨ u.sd_pins.d0 = GPIO_NUM_NC
  · have e1 := Loop_invalid env u hu hd hvv
    have e2 := Loop_invalid env v hv (by rw [hp]; exact hd) (by rw [hp]; exact hvv)
    rw [e1] at hi hc
    rw [e1, e2]
    obtain ⟨pu, cu, ⟨mu, lu, mpu, cnu, infu⟩, tu⟩ := u
    obtain ⟨pv, cv, iv, tv⟩ := v
    simp only [sampled] at hu hp hi hc ⊢
    subst hu hp
    simp [hi, hc]
  have hs1 : StartsMount env u :=
    ⟨hu, hd, hl, fun x => hvv (Or.inl x), fun x => hvv (Or.inr (Or.inl x)),
      fun x => hvv (Or.inr (Or.inr x))⟩
  have hs2 : StartsMount env v := by
    refine ⟨hv, ?_, ?_, ?_, ?_, ?_⟩ <;> rw [hp]
    · exact hs1.connected
    · exact hs1.inserted
    · exact hs1.clk
    · exact hs1.cmd
    · exact hs1.d0
  have e1 := Loop_started env u hs1
  have e2 := Loop_started env v hs2
  rw [e1] at hi hc
  rw [e1, e2]
  obtain ⟨pu, cu, ⟨mu, lu, mpu, cnu, infu⟩, tu⟩ := u
  obtain ⟨pv, cv, iv, tv⟩ := v
  simp only at hu hp
  subst hu hp
  by_cases c1 : env.sdmmc_host_init = ESP_OK <;>
  by_cases c2 : env.sdmmc_host_init_slot = ESP_OK <;>
  by_cases c3 : env.esp_vfs_fat_sdmmc_mount = ESP_OK <;>
  simp [c1, c2, c3, World.emit, sampled] at hi hc ⊢ <;>
  simp [hi, hc]

/-- Pin resolution depends on the NVS content only: it either fails in every state, or
succeeds in every state with the same pin map. -/
theorem LoadPinmapFromNvs_cases (flash : NvsFlash) :
    (∀ w : World, LoadPinmapFromNvs flash w = (false, w))
    ∨ ∃ pins : SdPinMap, ∀ w : World,
        LoadPinmapFromNvs flash w = (true, { w with sd_pins := pins }) := by
  cases hn : flash.nvs_open "wifi" with
  | none => exact Or.inl fun w => LoadPinmapFromNvs_fail flash w (Or.inl hn)
  | some nvs =>
    cases h1 : nvs "sd_clk" with
    | none => exact Or.inl fun w => LoadPinmapFromNvs_fail flash w (Or.inr ⟨nvs, hn, Or.inl h1⟩)
    | some clk =>
      cases h2 : nvs "sd_cmd" with
      | none =>
        exact Or.inl fun w =>
          LoadPinmapFromNvs_fail flash w (Or.inr ⟨nvs, hn, Or.inr (Or.inl h2)⟩)
      | some cmd =>
        cases h3 : nvs "sd_d0" with
        | none =>
          exact Or.inl fun w =>
            LoadPinmapFromNvs_fail flash w (Or.inr ⟨nvs, hn, Or.inr (Or.inr (Or.inl h3))⟩)
        | some d0 =>
          cases h4 : nvs "sd_d3" with
          | none =>
            exact Or.inl fun w =>
              LoadPinmapFromNvs_fail flash w (Or.inr ⟨nvs, hn, Or.inr (Or.inr (Or.inr h4))⟩)
          | some d3 =>
            exact Or.inr ⟨{ clk := clk, cmd := cmd, d0 := d0, d3 := d3 },
              fun w => LoadPinmapFromNvs_ok flash w nvs clk cmd d0 d3 hn h1 h2 h3 h4⟩

/-- C13: calling `ReinitFromNvs` a second time with the same NVS content and the same vendor
answers gives the same return value and the same controller state as the first call:
instance data (mount state, last-detect state, mount point, card name, card info), pin map
and card handle. -/
theorem C13_reinit_twice_same_as_once (flash : NvsFlash) (env : Env) (w : World) :
    (ReinitFromNvs flash env (ReinitFromNvs flash env w).2).1 = (ReinitFromNvs flash env w).1
    ∧ (ReinitFromNvs flash env (ReinitFromNvs flash env w).2).2.inst
        = (ReinitFromNvs flash env w).2.inst
    ∧ (ReinitFromNvs flash env (ReinitFromNvs flash env w).2).2.sd_pins
        = (ReinitFromNvs flash env w).2.sd_pins
    ∧ (ReinitFromNvs flash env (ReinitFromNvs flash env w).2).2.s_card
        = (ReinitFromNvs flash env w).2.s_card := by
  rcases LoadPinmapFromNvs_cases flash with hf | ⟨pins, hok⟩
  · have hr : ∀ x : World, ReinitFromNvs flash env x = (ESP_FAIL, Deinit x) := by
      intro x
      unfold ReinitFromNvs
      dsimp only
      rw [hf (Deinit x)]
      simp
    rw [hr w, hr (Deinit w)]
    refine ⟨rfl, ?_, ?_, ?_⟩
    · show (Deinit (Deinit w)).inst = (Deinit w).inst
      rw [Deinit_inst (Deinit w), Deinit_inst w]
    · show (Deinit (Deinit w)).sd_pins = (Deinit w).sd_pins
      rw [Deinit_sd_pins]
    · show (Deinit (Deinit w)).s_card = (Deinit w).s_card
      rw [Deinit_s_card (Deinit w), Deinit_mounted]
      rfl
  · have hr : ∀ x : World, ReinitFromNvs flash env x
        = (if (Loop env (configDetect { Deinit x with sd_pins := pins })).inst.mounted_
            then ESP_OK else ESP_FAIL,
           Loop env (configDetect { Deinit x with sd_pins := pins })) := by
      intro x
      unfold ReinitFromNvs
      dsimp only
      rw [hok (Deinit x)]
      simp
    have hu : (configDetect { Deinit w with sd_pins := pins }).inst.mounted_ = false := by
      rw [configDetect_inst]
      exact Deinit_mounted w
    have key := Loop_again env (configDetect { Deinit w with sd_pins := pins })
      (configDetect
        { Deinit (Loop env (configDetect { Deinit w with sd_pins := pins })) with
          sd_pins := pins })
      hu
      (by rw [configDetect_sd_pins, configDetect_sd_pins])
      (by
        rw [configDetect_inst]
        exact Deinit_inst _)
      (by
        rw [configDetect_s_card]
        exact Deinit_s_card _)
    rw [hr w, hr (Loop env (configDetect { Deinit w with sd_pins := pins }))]
    dsimp only
    refine ⟨?_, key.1, ?_, key.2⟩
    · rw [key.1]
    · rw [Loop_sd_pins, Loop_sd_pins, configDetect_sd_pins, configDetect_sd_pins]

/-! ## What a successful mount captures -/

/-- A `Loop` call that turns an unmounted controller into a mounted one got past its guards
with all three stages succeeding. -/
theorem Loop_mounts_started (env : Env) (w : World) (hm : w.inst.mounted_ = false)
    (h : (Loop env w).inst.mounted_ = true) : StartsMount env w ∧ stagesSucceed env = true := by
  by_cases hs : StartsMount env w
  · refine ⟨hs, ?_⟩
    rw [← Loop_started_mounted env w hs]
    exact h
  · rw [Loop_not_started_mounted env w hs, hm] at h
    cases h

/-- A `Loop` call that mounts stores the returned handle, the first five characters of the
product name, and the quotient of the sector count by 1048576. -/
theorem Loop_mounts_card (env : Env) (w : World) (hm : w.inst.mounted_ = false)
    (h : (Loop env w).inst.mounted_ = true) :
    (Loop env w).s_card = some env.mount_card
    ∧ (Loop env w).inst.card_name_ = cardNameOf env.mount_card
    ∧ (Loop env w).inst.info_
        = { capacityMB := capacityMBOf env.mount_card, speedKBps := w.inst.info_.speedKBps }
    ∧ (Loop env w).trace = w.trace ++
        [Event.gpio_get_level w.sd_pins.d3 (env.gpio_get_level w.sd_pins.d3),
         Event.sdmmc_host_init env.sdmmc_host_init,
         Event.sdmmc_host_init_slot SDMMC_HOST_SLOT_1 (Loop.slot w.sd_pins)
           env.sdmmc_host_init_slot,
         Event.esp_vfs_fat_sdmmc_mount "/sdcard" Loop.host (Loop.slot w.sd_pins)
           Loop.mount_cfg env.esp_vfs_fat_sdmmc_mount env.out_card] := by
  obtain ⟨hs, hst⟩ := Loop_mounts_started env w hm h
  rw [Loop_started env w hs]
  unfold stagesSucceed at hst
  have hall := of_decide_eq_true hst
  simp [hall.1, hall.2.1, hall.2.2]

/-! ## Host controller discipline -/

/-- C14: with the host controller's flag set by a successful `sdmmc_host_init` and cleared
by `sdmmc_host_deinit`, in every reachable state the flag is set exactly when the
controller is mounted, it is clear after `Deinit`, and every `sdmmc_host_init` call made so
far, and by an `Init` or `Loop` that follows `Deinit`, was issued with the flag clear, so a
controller that rejects an init while the flag is set never rejects one. -/
theorem C14_host_flag_tracks_mount_state (w : World) (hr : Reachable w) :
    hostInitialized w.trace = IsMounted w
    ∧ hostInitialized (Deinit w).trace = false
    ∧ initsWhenClear false w.trace = true
    ∧ (∀ (flash : NvsFlash) (env : Env),
        initsWhenClear false (Init flash env (Deinit w)).2.trace = true)
    ∧ (∀ env : Env, initsWhenClear false (Loop env (Deinit w)).trace = true) := by
  have hd : Reachable (Deinit w) := hr.step Op.Deinit
  refine ⟨hr.inv.host, ?_, hr.traceInv.inits, ?_, ?_⟩
  · rw [(Inv_Deinit w hr.inv).host, Deinit_mounted]
  · intro flash env
    exact (hd.step (Op.Init flash env)).traceInv.inits
  · intro env
    exact (hd.step (Op.Loop env)).traceInv.inits

/-- C14 at the state reached by booting with a card that mounts. -/
theorem C14_host_flag_tracks_mount_state_witness :
    hostInitialized worldMounted.trace = IsMounted worldMounted
    ∧ hostInitialized (Deinit worldMounted).trace = false
    ∧ initsWhenClear false worldMounted.trace = true :=
  ⟨(C14_host_flag_tracks_mount_state worldMounted ⟨[Op.Init flashEmpty envGood], rfl⟩).1,
   (C14_host_flag_tracks_mount_state worldMounted ⟨[Op.Init flashEmpty envGood], rfl⟩).2.1,
   (C14_host_flag_tracks_mount_state worldMounted ⟨[Op.Init flashEmpty envGood], rfl⟩).2.2.1⟩

/-! ## Card name -/

/-- C15: from the freshly constructed state, with no usable pin map in NVS, the detect line
of the default map (GPIO 13) reading 1 and host init, slot init and mount succeeding, `Init`
ends mounted and `GetCardName()` is the five characters `cid.name[0..4]` of the returned
descriptor; and whenever `Loop` mounts an unmounted controller, `GetCardName()` is again
these five characters of the descriptor that mount returned. -/
theorem C15_card_name_is_first_five_of_product_name (flash : NvsFlash) (env : Env)
    (hflash : flash.nvs_open "wifi" = none ∨
      ∃ nvs, flash.nvs_open "wifi" = some nvs ∧
        (nvs "sd_clk" = none ∨ nvs "sd_cmd" = none ∨ nvs "sd_d0" = none ∨ nvs "sd_d3" = none))
    (hlevel : env.gpio_get_level 13 = 1)
    (hhost : env.sdmmc_host_init = ESP_OK) (hslot : env.sdmmc_host_init_slot = ESP_OK)
    (hmount : env.esp_vfs_fat_sdmmc_mount = ESP_OK) :
    IsMounted (Init flash env World.initial).2 = true
    ∧ GetCardName (Init flash env World.initial).2
        = String.mk [env.mount_card.cid.name 0, env.mount_card.cid.name 1,
            env.mount_card.cid.name 2, env.mount_card.cid.name 3, env.mount_card.cid.name 4]
    ∧ (GetCardName (Init flash env World.initial).2).length = 5
    ∧ (∀ (env2 : Env) (w : World), IsMounted w = false → IsMounted (Loop env2 w) = true →
        GetCardName (Loop env2 w)
          = String.mk [env2.mount_card.cid.name 0, env2.mount_card.cid.name 1,
              env2.mount_card.cid.name 2, env2.mount_card.cid.name 3,
              env2.mount_card.cid.name 4]
        ∧ (GetCardName (Loop env2 w)).length = 5) := by
  have hinit : (Init flash env World.initial).2
      = Loop env (configDetect { World.initial with sd_pins := sd_pins_default }) := by
    unfold Init
    dsimp only
    rw [LoadPinmapFromNvs_fail flash World.initial hflash]
    rfl
  have hs : StartsMount env (configDetect { World.initial with sd_pins := sd_pins_default }) := by
    refine ⟨rfl, ?_, ?_, ?_, ?_, ?_⟩
    · rw [configDetect_sd_pins]; decide
    · rw [configDetect_sd_pins]; exact hlevel
    · rw [configDetect_sd_pins]; decide
    · rw [configDetect_sd_pins]; decide
    · rw [configDetect_sd_pins]; decide
  have hm : (Init flash env World.initial).2.inst.mounted_ = true := by
    rw [hinit, Loop_started_mounted env _ hs]
    simp [stagesSucceed, hhost, hslot, hmount]
  have hname : (Init flash env World.initial).2.inst.card_name_ = cardNameOf env.mount_card := by
    rw [hinit] at hm ⊢
    exact (Loop_mounts_card env _ rfl hm).2.1
  refine ⟨hm, hname, ?_, ?_⟩
  · show (Init flash env World.initial).2.inst.card_name_.length = 5
    rw [hname]
    rfl
  · intro env2 w hw hw2
    have hn := (Loop_mounts_card env2 w hw hw2).2.1
    refine ⟨hn, ?_⟩
    show (Loop env2 w).inst.card_name_.length = 5
    rw [hn]
    rfl

/-- C15 at scenario B: empty NVS, a card with product name "SD32G" that mounts. -/
theorem C15_card_name_is_first_five_of_product_name_witness :
    IsMounted (Init flashEmpty envGood World.initial).2 = true
    ∧ GetCardName (Init flashEmpty envGood World.initial).2 = "SD32G"
    ∧ (GetCardName (Init flashEmpty envGood World.initial).2).length = 5 :=
  ⟨(C15_card_name_is_first_five_of_product_name flashEmpty envGood (Or.inl rfl) rfl rfl rfl
      rfl).1,
   (C15_card_name_is_first_five_of_product_name flashEmpty envGood (Or.inl rfl) rfl rfl rfl
      rfl).2.1,
   (C15_card_name_is_first_five_of_product_name flashEmpty envGood (Or.inl rfl) rfl rfl rfl
      rfl).2.2.1⟩

/-! ## Mount parameters -/

/-- Calls added by one `Loop`: any mount among them is at "/sdcard", with the host
descriptor, mount options and slot configuration `Loop` builds from the current pin map. -/
theorem Loop_new_calls (env : Env) (w : World) :
    ∃ evs : List Event, (Loop env w).trace = w.trace ++ evs
      ∧ ∀ base host slot cfg ret c,
          Event.esp_vfs_fat_sdmmc_mount base host slot cfg ret c ∈ evs →
          base = "/sdcard" ∧ host = Loop.host ∧ slot = Loop.slot w.sd_pins
            ∧ cfg = Loop.mount_cfg := by
  by_cases hm : w.inst.mounted_ = true
  · exact ⟨[], by rw [Loop_mounted env w hm, List.append_nil], fun _ _ _ _ _ _ h => by cases h⟩
  have hm : w.inst.mounted_ = false := by simpa using hm
  by_cases hd : w.sd_pins.d3 = GPIO_NUM_NC
  · exact ⟨[], by rw [Loop_not_connected env w hd, List.append_nil],
      fun _ _ _ _ _ _ h => by cases h⟩
  by_cases hl : env.gpio_get_level w.sd_pins.d3 = 1
  swap
  · refine ⟨[Event.gpio_get_level w.sd_pins.d3 (env.gpio_get_level w.sd_pins.d3)],
      by rw [Loop_absent env w hm hd hl]; rfl, ?_⟩
    intro _ _ _ _ _ _ h
    simp at h
  by_cases hv : w.sd_pins.clk = GPIO_NUM_NC ∨ w.sd_pins.cmd = GPIO_NUM_NC
      ∨ w.sd_pins.d0 = GPIO_NUM_NC
  · refine ⟨[Event.gpio_get_level w.sd_pins.d3 (env.gpio_get_level w.sd_pins.d3)],
      by rw [Loop_invalid env w hm hd hv]; rfl, ?_⟩
    intro _ _ _ _ _ _ h
    simp at h
  have hs : StartsMount env w :=
    ⟨hm, hd, hl, fun x => hv (Or.inl x), fun x => hv (Or.inr (Or.inl x)),
      fun x => hv (Or.inr (Or.inr x))⟩
  rw [Loop_started env w hs]
  by_cases c1 : env.sdmmc_host_init = ESP_OK
  · by_cases c2 : env.sdmmc_host_init_slot = ESP_OK
    · by_cases c3 : env.esp_vfs_fat_sdmmc_mount = ESP_OK
      · simp only [c1, c2, c3, ne_eq, not_true_eq_false, if_false]
        refine ⟨_, rfl, ?_⟩
        intro base host slot cfg ret c h
        simp at h
        exact ⟨h.1, h.2.1, h.2.2.1, h.2.2.2.1⟩
      · simp only [c1, c2, c3, ne_eq, not_true_eq_false, not_false_eq_true, if_false, if_true]
        refine ⟨_, rfl, ?_⟩
        intro base host slot cfg ret c h
        simp at h
        exact ⟨h.1, h.2.1, h.2.2.1, h.2.2.2.1⟩
    · simp only [c1, c2, ne_eq, not_true_eq_false, not_false_eq_true, if_false, if_true]
      refine ⟨[Event.gpio_get_level w.sd_pins.d3 (env.gpio_get_level w.sd_pins.d3),
        Event.sdmmc_host_init ESP_OK,
        Event.sdmmc_host_init_slot SDMMC_HOST_SLOT_1 (Loop.slot w.sd_pins)
          env.sdmmc_host_init_slot,
        Event.sdmmc_host_deinit], by simp [World.emit, sampled], ?_⟩
      intro base host slot cfg ret c h
      simp at h
  · simp only [c1, ne_eq, not_false_eq_true, if_true]
    refine ⟨[Event.gpio_get_level w.sd_pins.d3 (env.gpio_get_level w.sd_pins.d3),
      Event.sdmmc_host_init env.sdmmc_host_init], by simp [World.emit, sampled], ?_⟩
    intro base host slot cfg ret c h
    simp at h

/-- Calls added by the detect-line setup: none of them is a mount. -/
theorem configDetect_new_calls (w : World) :
    ∃ evs : List Event, (configDetect w).trace = w.trace ++ evs
      ∧ ∀ base host slot cfg ret c,
          Event.esp_vfs_fat_sdmmc_mount base host slot cfg ret c ∉ evs := by
  unfold configDetect
  split
  · refine ⟨[Event.gpio_set_direction w.sd_pins.d3 GPIO_MODE_INPUT,
      Event.gpio_pullup_en w.sd_pins.d3], by simp [World.emit], ?_⟩
    intro base host slot cfg ret c h
    simp at h
  · exact ⟨[], by rw [List.append_nil], fun _ _ _ _ _ _ h => by cases h⟩

/-- Calls added by `Deinit`: none of them is a mount. -/
theorem Deinit_new_calls (w : World) :
    ∃ evs : List Event, (Deinit w).trace = w.trace ++ evs
      ∧ ∀ base host slot cfg ret c,
          Event.esp_vfs_fat_sdmmc_mount base host slot cfg ret c ∉ evs := by
  refine ⟨(if w.inst.mounted_ then
      [Event.esp_vfs_fat_sdcard_unmount w.inst.mount_point_ w.s_card] else [])
    ++ [Event.sdmmc_host_deinit], by rw [Deinit_trace, List.append_assoc], ?_⟩
  intro base host slot cfg ret c h
  split at h <;> simp at h

/-- Calls added by one `Init`: any mount among them is at "/sdcard", with the host
descriptor and mount options `Loop` builds and the slot configuration of the pin map that
`Init` resolved. -/
theorem Init_new_calls (flash : NvsFlash) (env : Env) (w : World) :
    ∃ evs : List Event, (Init flash env w).2.trace = w.trace ++ evs
      ∧ ∀ base host slot cfg ret c,
          Event.esp_vfs_fat_sdmmc_mount base host slot cfg ret c ∈ evs →
          base = "/sdcard" ∧ host = Loop.host
            ∧ slot = Loop.slot (Init flash env w).2.sd_pins ∧ cfg = Loop.mount_cfg := by
  have hgen : ∀ u : World, u.trace = w.trace →
      ∃ evs : List Event, (Loop env (configDetect u)).trace = w.trace ++ evs
        ∧ ∀ base host slot cfg ret c,
            Event.esp_vfs_fat_sdmmc_mount base host slot cfg ret c ∈ evs →
            base = "/sdcard" ∧ host = Loop.host
              ∧ slot = Loop.slot (Loop env (configDetect u)).sd_pins ∧ cfg = Loop.mount_cfg := by
    intro u hu
    obtain ⟨l0, ht0, hn0⟩ := configDetect_new_calls u
    obtain ⟨l1, ht1, hp1⟩ := Loop_new_calls env (configDetect u)
    refine ⟨l0 ++ l1, by rw [ht1, ht0, hu, List.append_assoc], ?_⟩
    intro base host slot cfg ret c h
    rw [List.mem_append] at h
    rcases h with h | h
    · exact absurd h (hn0 base host slot cfg ret c)
    · rw [Loop_sd_pins]
      exact hp1 base host slot cfg ret c h
  unfold Init
  dsimp only
  split
  · exact hgen _ (LoadPinmapFromNvs_frame flash w).2.2
  · exact hgen { (LoadPinmapFromNvs flash w).2 with sd_pins := sd_pins_default }
      (LoadPinmapFromNvs_frame flash w).2.2

/-- Calls added by one `ReinitFromNvs`: any mount among them is at "/sdcard", with the host
descriptor and mount options `Loop` builds and the slot configuration of the pin map in
effect when `ReinitFromNvs` returns. -/
theorem ReinitFromNvs_new_calls (flash : NvsFlash) (env : Env) (w : World) :
    ∃ evs : List Event, (ReinitFromNvs flash env w).2.trace = w.trace ++ evs
      ∧ ∀ base host slot cfg ret c,
          Event.esp_vfs_fat_sdmmc_mount base host slot cfg ret c ∈ evs →
          base = "/sdcard" ∧ host = Loop.host
            ∧ slot = Loop.slot (ReinitFromNvs flash env w).2.sd_pins
            ∧ cfg = Loop.mount_cfg := by
  obtain ⟨ld, htd, hnd⟩ := Deinit_new_calls w
  have hlt : (LoadPinmapFromNvs flash (Deinit w)).2.trace = w.trace ++ ld := by
    rw [(LoadPinmapFromNvs_frame flash (Deinit w)).2.2, htd]
  unfold ReinitFromNvs
  dsimp only
  split
  · exact ⟨ld, hlt, fun base host slot cfg ret c h => absurd h (hnd base host slot cfg ret c)⟩
  · obtain ⟨l0, ht0, hn0⟩ := configDetect_new_calls (LoadPinmapFromNvs flash (Deinit w)).2
    obtain ⟨l1, ht1, hp1⟩ :=
      Loop_new_calls env (configDetect (LoadPinmapFromNvs flash (Deinit w)).2)
    refine ⟨ld ++ (l0 ++ l1), by rw [ht1, ht0, hlt, List.append_assoc, List.append_assoc], ?_⟩
    intro base host slot cfg ret c h
    rw [List.mem_append, List.mem_append] at h
    rcases h with h | h | h
    · exact absurd h (hnd base host slot cfg ret c)
    · exact absurd h (hn0 base host slot cfg ret c)
    · dsimp only
      rw [Loop_sd_pins]
      exact hp1 base host slot cfg ret c h

/-- C16: in every reachable state `GetMountPoint()` is "/sdcard", every mount call made so
far was at "/sdcard" with format-on-failure off, 6 files, 16384-byte allocation units and
bus width 1, and every unmount call was at "/sdcard". Moreover, in every state whatsoever,
so also in those in which `Init` and `ReinitFromNvs` call `Loop`, every mount call that a
`Loop`, an `Init` or a `ReinitFromNvs` adds is at "/sdcard" with exactly these options,
width 1 and the slot lines `clk`, `cmd`, `d0`, `d3` of the pin map in effect during that
call: the current one for `Loop`, the one just resolved for `Init` and `ReinitFromNvs`. -/
theorem C16_mount_uses_fixed_parameters (w : World) (hr : Reachable w) :
    GetMountPoint w = "/sdcard"
    ∧ (∀ base host slot cfg ret c,
        Event.esp_vfs_fat_sdmmc_mount base host slot cfg ret c ∈ w.trace →
        base = "/sdcard" ∧ cfg.format_if_mount_failed = false ∧ cfg.max_files = 6
          ∧ cfg.allocation_unit_size = 16384 ∧ slot.width = 1)
    ∧ (∀ base card, Event.esp_vfs_fat_sdcard_unmount base card ∈ w.trace → base = "/sdcard")
    ∧ (∀ (env : Env) (u : World), ∃ evs : List Event, (Loop env u).trace = u.trace ++ evs
        ∧ ∀ base host slot cfg ret c,
            Event.esp_vfs_fat_sdmmc_mount base host slot cfg ret c ∈ evs →
            base = "/sdcard"
            ∧ cfg = { format_if_mount_failed := false, max_files := 6,
                      allocation_unit_size := 16384 }
            ∧ slot = { width := 1, clk := u.sd_pins.clk, cmd := u.sd_pins.cmd,
                       d0 := u.sd_pins.d0, d3 := u.sd_pins.d3 })
    ∧ (∀ (flash : NvsFlash) (env : Env) (u : World),
        ∃ evs : List Event, (Init flash env u).2.trace = u.trace ++ evs
        ∧ ∀ base host slot cfg ret c,
            Event.esp_vfs_fat_sdmmc_mount base host slot cfg ret c ∈ evs →
            base = "/sdcard"
            ∧ cfg = { format_if_mount_failed := false, max_files := 6,
                      allocation_unit_size := 16384 }
            ∧ slot = { width := 1, clk := (Init flash env u).2.sd_pins.clk,
                       cmd := (Init flash env u).2.sd_pins.cmd,
                       d0 := (Init flash env u).2.sd_pins.d0,
                       d3 := (Init flash env u).2.sd_pins.d3 })
    ∧ (∀ (flash : NvsFlash) (env : Env) (u : World),
        ∃ evs : List Event, (ReinitFromNvs flash env u).2.trace = u.trace ++ evs
        ∧ ∀ base host slot cfg ret c,
            Event.esp_vfs_fat_sdmmc_mount base host slot cfg ret c ∈ evs →
            base = "/sdcard"
            ∧ cfg = { format_if_mount_failed := false, max_files := 6,
                      allocation_unit_size := 16384 }
            ∧ slot = { width := 1, clk := (ReinitFromNvs flash env u).2.sd_pins.clk,
                       cmd := (ReinitFromNvs flash env u).2.sd_pins.cmd,
                       d0 := (ReinitFromNvs flash env u).2.sd_pins.d0,
                       d3 := (ReinitFromNvs flash env u).2.sd_pins.d3 }) := by
  refine ⟨hr.inv.point, ?_, ?_, ?_, ?_, ?_⟩
  · intro base host slot cfg ret c h
    exact hr.traceInv.params _ h
  · intro base card h
    exact hr.traceInv.params _ h
  · intro env u
    obtain ⟨evs, ht, hp⟩ := Loop_new_calls env u
    refine ⟨evs, ht, ?_⟩
    intro base host slot cfg ret c h
    obtain ⟨h1, _, h3, h4⟩ := hp base host slot cfg ret c h
    exact ⟨h1, by rw [h4]; rfl, by rw [h3]; rfl⟩
  · intro flash env u
    obtain ⟨evs, ht, hp⟩ := Init_new_calls flash env u
    refine ⟨evs, ht, ?_⟩
    intro base host slot cfg ret c h
    obtain ⟨h1, _, h3, h4⟩ := hp base host slot cfg ret c h
    exact ⟨h1, by rw [h4]; rfl, by rw [h3]; rfl⟩
  · intro flash env u
    obtain ⟨evs, ht, hp⟩ := ReinitFromNvs_new_calls flash env u
    refine ⟨evs, ht, ?_⟩
    intro base host slot cfg ret c h
    obtain ⟨h1, _, h3, h4⟩ := hp base host slot cfg ret c h
    exact ⟨h1, by rw [h4]; rfl, by rw [h3]; rfl⟩

/-- C16 at the state reached by booting with a card that mounts. -/
theorem C16_mount_uses_fixed_parameters_witness :
    GetMountPoint worldMounted = "/sdcard"
    ∧ (∀ base host slot cfg ret c,
        Event.esp_vfs_fat_sdmmc_mount base host slot cfg ret c ∈ worldMounted.trace →
        base = "/sdcard" ∧ cfg.format_if_mount_failed = false ∧ cfg.max_files = 6
          ∧ cfg.allocation_unit_size = 16384 ∧ slot.width = 1) :=
  ⟨(C16_mount_uses_fixed_parameters worldMounted ⟨[Op.Init flashEmpty envGood], rfl⟩).1,
   (C16_mount_uses_fixed_parameters worldMounted ⟨[Op.Init flashEmpty envGood], rfl⟩).2.1⟩

/-! ## Card capacity -/

/-- C17 fails on the code: after mounting a card of 62333952 sectors of 512 bytes, whose
capacity is 62333952 * 512 / 1048576 = 30436 MiB, `GetCardInfo().capacityMB` is 59, the
sector count divided by 1048576; `speedKBps` is 0. -/
theorem C17_capacity_is_sector_count_over_mebi :
    IsMounted worldMounted = true
    ∧ worldMounted.s_card = some cardSample
    ∧ cardSample.csd.capacity = 62333952
    ∧ cardSample.csd.sector_size = 512
    ∧ (GetCardInfo worldMounted).capacityMB = 59
    ∧ cardSample.csd.capacity * cardSample.csd.sector_size / 1048576 = 30436
    ∧ (GetCardInfo worldMounted).speedKBps = 0 := by
  refine ⟨rfl, rfl, rfl, rfl, rfl, ?_, rfl⟩
  decide

/-! ## Detect line sampling -/

/-- C18: when `d3` is set, `DetectInserted` reads the detect line exactly once, returns true
exactly when the level read is 1, returns the same whatever the stored last-detect state
was, and leaves the stored last-detect state equal to what it returned. -/
theorem C18_detect_returns_fresh_sample (env : Env) (w : World)
    (h : w.sd_pins.d3 ≠ GPIO_NUM_NC) :
    (DetectInserted env w).2.trace
        = w.trace ++ [Event.gpio_get_level w.sd_pins.d3 (env.gpio_get_level w.sd_pins.d3)]
    ∧ ((DetectInserted env w).1 = true ↔ env.gpio_get_level w.sd_pins.d3 = 1)
    ∧ (∀ b : Bool,
        (DetectInserted env { w with inst := { w.inst with last_detect_state_ := b } }).1
          = (DetectInserted env w).1)
    ∧ (DetectInserted env w).2.inst.last_detect_state_ = (DetectInserted env w).1 := by
  rw [DetectInserted_connected env w h]
  refine ⟨rfl, ?_, ?_, rfl⟩
  · simp
  · intro b
    exact congrArg Prod.fst
      (DetectInserted_connected env
        { w with inst := { w.inst with last_detect_state_ := b } } h)

/-- C18 at the booted state, whose stored last-detect state is false, with the line at 1. -/
theorem C18_detect_returns_fresh_sample_witness :
    (DetectInserted envGood worldBooted).2.trace
        = worldBooted.trace
          ++ [Event.gpio_get_level worldBooted.sd_pins.d3
                (envGood.gpio_get_level worldBooted.sd_pins.d3)]
    ∧ ((DetectInserted envGood worldBooted).1 = true
        ↔ envGood.gpio_get_level worldBooted.sd_pins.d3 = 1)
    ∧ (∀ b : Bool,
        (DetectInserted envGood
            { worldBooted with inst := { worldBooted.inst with last_detect_state_ := b } }).1
          = (DetectInserted envGood worldBooted).1)
    ∧ (DetectInserted envGood worldBooted).2.inst.last_detect_state_
        = (DetectInserted envGood worldBooted).1 :=
  C18_detect_returns_fresh_sample envGood worldBooted (by decide)

/-! ## Card handle -/

/-- C19: in every reachable state the stored card handle is non-null exactly when the
controller is mounted, and then it is the handle the most recent successful mount returned;
so when `Deinit` unmounts, it calls the unmount once, at "/sdcard", with that non-null
handle, and when the controller is not mounted it does not call the unmount. -/
theorem C19_held_handle_is_latest_mounted (w : World) (hr : Reachable w) :
    (w.s_card.isSome = IsMounted w)
    ∧ (IsMounted w = true →
        w.s_card = lastMountHandle w.trace
        ∧ lastMountHandle w.trace ≠ none
        ∧ (Deinit w).trace = w.trace
            ++ [Event.esp_vfs_fat_sdcard_unmount "/sdcard" (lastMountHandle w.trace),
                Event.sdmmc_host_deinit])
    ∧ (IsMounted w = false → (Deinit w).trace = w.trace ++ [Event.sdmmc_host_deinit]) := by
  refine ⟨hr.inv.card, ?_, ?_⟩
  · intro hm
    have hh := hr.traceInv.handle hm
    refine ⟨hh, ?_, ?_⟩
    · rw [← hh]
      intro hn
      have hc := hr.inv.card
      rw [hn] at hc
      have hm2 : w.inst.mounted_ = true := hm
      rw [hm2] at hc
      cases hc
    · have hm2 : w.inst.mounted_ = true := hm
      rw [Deinit_trace, hr.inv.point, ← hh, hm2]
      simp
  · intro hm
    have hm2 : w.inst.mounted_ = false := hm
    rw [Deinit_trace, hm2]
    simp

/-- C19 at the state reached by booting with a card that mounts: the handle is the
descriptor that mount returned. -/
theorem C19_held_handle_is_latest_mounted_witness :
    worldMounted.s_card.isSome = IsMounted worldMounted
    ∧ (IsMounted worldMounted = true →
        worldMounted.s_card = lastMountHandle worldMounted.trace
        ∧ lastMountHandle worldMounted.trace ≠ none
        ∧ (Deinit worldMounted).trace = worldMounted.trace
            ++ [Event.esp_vfs_fat_sdcard_unmount "/sdcard" (lastMountHandle worldMounted.trace),
                Event.sdmmc_host_deinit]) :=
  ⟨(C19_held_handle_is_latest_mounted worldMounted ⟨[Op.Init flashEmpty envGood], rfl⟩).1,
   (C19_held_handle_is_latest_mounted worldMounted ⟨[Op.Init flashEmpty envGood], rfl⟩).2.1⟩

/-! ## Pin map after a failed re-resolution -/

/-- C20: when the namespace cannot be opened or one of the four keys is unreadable,
`ReinitFromNvs` leaves the pin map exactly as it was before the call; a later `Loop` that
reads the detect line of that map as 1, the map being complete, starts a mount sequence,
and its slot init is issued with the lines of that earlier map. -/
theorem C20_failed_reinit_keeps_pin_map (flash : NvsFlash) (env : Env) (w : World)
    (h : flash.nvs_open "wifi" = none ∨
      ∃ nvs, flash.nvs_open "wifi" = some nvs ∧
        (nvs "sd_clk" = none ∨ nvs "sd_cmd" = none ∨ nvs "sd_d0" = none ∨ nvs "sd_d3" = none)) :
    (ReinitFromNvs flash env w).2.sd_pins = w.sd_pins
    ∧ (∀ env2 : Env,
        w.sd_pins.d3 ≠ GPIO_NUM_NC → env2.gpio_get_level w.sd_pins.d3 = 1 →
        w.sd_pins.clk ≠ GPIO_NUM_NC → w.sd_pins.cmd ≠ GPIO_NUM_NC →
        w.sd_pins.d0 ≠ GPIO_NUM_NC →
        hostInitCalls (Loop env2 (ReinitFromNvs flash env w).2).trace
          = hostInitCalls (ReinitFromNvs flash env w).2.trace + 1
        ∧ (env2.sdmmc_host_init = ESP_OK →
            Event.sdmmc_host_init_slot SDMMC_HOST_SLOT_1
                { width := 1, clk := w.sd_pins.clk, cmd := w.sd_pins.cmd,
                  d0 := w.sd_pins.d0, d3 := w.sd_pins.d3 }
                env2.sdmmc_host_init_slot
              ∈ (Loop env2 (ReinitFromNvs flash env w).2).trace)) := by
  have hx : ReinitFromNvs flash env w = (ESP_FAIL, Deinit w) := by
    unfold ReinitFromNvs
    dsimp only
    rw [LoadPinmapFromNvs_fail flash (Deinit w) h]
    simp
  rw [hx]
  dsimp only
  refine ⟨Deinit_sd_pins w, ?_⟩
  intro env2 hd hl hclk hcmd hd0
  have hp := Deinit_sd_pins w
  have hs : StartsMount env2 (Deinit w) := by
    refine ⟨Deinit_mounted w, ?_, ?_, ?_, ?_, ?_⟩ <;> rw [hp]
    · exact hd
    · exact hl
    · exact hclk
    · exact hcmd
    · exact hd0
  refine ⟨Loop_started_calls env2 _ hs, ?_⟩
  intro hok
  rw [Loop_started env2 _ hs, hp]
  by_cases c2 : env2.sdmmc_host_init_slot = ESP_OK <;>
  by_cases c3 : env2.esp_vfs_fat_sdmmc_mount = ESP_OK <;>
  simp [hok, c2, c3, World.emit, sampled, Loop.slot]

/-- C20 at scenario D continued: mounted on the default pins, the partition now empty. -/
theorem C20_failed_reinit_keeps_pin_map_witness :
    (ReinitFromNvs flashEmpty envGood worldMounted).2.sd_pins = worldMounted.sd_pins :=
  (C20_failed_reinit_keeps_pin_map flashEmpty envGood worldMounted (Or.inl rfl)).1

end SdMountModel
